import Mathlib

/-!
# ArrayFire window API and CUDA plot copy: effect-trace embedding

`src/api/c/window.cpp` and `src/backend/cuda/plot.cpp` are binding layers: each
function performs a fixed, guarded sequence of calls into Forge (`fg_*`), the
`ForgeManager`, CUDA and OpenGL.  The embedding makes that sequence explicit:

* every call into a collaborator is recorded as an `Event`, in program order;
* what a collaborator answers (a returned handle, an error code, a raised
  exception) is read from an `Env`, one field per collaborator entry point;
* a C++ exception is the `error` side of the result, an output parameter
  (`*out`) is the state component of the program.

Pointers are natural numbers with `0` for `NULL`; C strings are `Option String`
with `none` for `NULL`; `float`/`double` values are the rationals they denote
(the implicit conversions between the two widths are not represented).
-/

namespace ArrayFire

/-! ## Data model -/

/-- Pointer-like handles (`af_window`, `fg_window`, `fg_chart`, `af_array`,
`fg_plot`, device and host addresses).  `0` is the null handle. -/
abbrev Handle := Nat

/-- A C string argument, `none` being the null pointer. -/
abbrev CStr := Option String

/-- Values of `float` and `double` variables. -/
abbrev Scalar := ℚ

/-- The `af_err` codes: the two named in the sources and every other code. -/
inductive af_err where
  | AF_SUCCESS
  | AF_ERR_NO_GFX
  | AF_ERR_OTHER (code : Nat)
  deriving DecidableEq, Repr

/-- Forge status codes. -/
inductive fg_err where
  | FG_ERR_NONE
  | FG_ERR (code : Nat)
  deriving DecidableEq, Repr

/-- CUDA runtime status codes. -/
inductive cudaError_t where
  | cudaSuccess
  | cudaError (code : Nat)
  deriving DecidableEq, Repr

inductive fg_chart_type where
  | FG_CHART_2D
  | FG_CHART_3D
  deriving DecidableEq, Repr

inductive cudaMemcpyKind where
  | cudaMemcpyDeviceToDevice
  | cudaMemcpyDeviceToHost
  deriving DecidableEq, Repr

/-- The OpenGL enumerants used by `copy_plot`. -/
inductive GLenum where
  | GL_ARRAY_BUFFER
  | GL_WRITE_ONLY
  deriving DecidableEq, Repr

/-- The members of `af_cell` that `window.cpp` reads. -/
structure af_cell where
  row : Int
  col : Int
  deriving DecidableEq, Repr

/-- The part of `Array<T>` that `copy_plot` can observe: the device pointer
returned by `get()` and the number of elements. -/
structure Array where
  ptr : Handle
  elements : Nat
  deriving DecidableEq, Repr

/-- `P.get()`. -/
def Array.get (P : Array) : Handle := P.ptr

/-- C++ exceptions in flight. -/
inductive Exn where
  -- raised by `FG_CHECK` for a Forge status other than `FG_ERR_NONE`
  | fg_check (e : fg_err)
  -- raised by `AF_CHECK` for a status other than `AF_SUCCESS`
  | af_check (e : af_err)
  -- raised by `CUDA_CHECK` for a status other than `cudaSuccess`
  | cuda_check (e : cudaError_t)
  -- any exception raised inside a callee
  | thrown (tag : Nat)
  deriving DecidableEq, Repr

/-- One call into a collaborator, with the arguments passed. -/
inductive Event where
  | cerr (msg : String)
  | getInstance
  | getMainWindow
  | fg_create_window (width height : Int) (title : CStr) (shared : Handle) (invisible : Bool)
  | setWindowChartGrid (window : Handle) (r c : Int)
  | fg_set_window_position (wind : Handle) (x y : Nat)
  | fg_set_window_title (wind : Handle) (title : CStr)
  | fg_set_window_size (wind : Handle) (w h : Nat)
  | getChart (window : Handle) (r c : Int) (ctype : fg_chart_type)
  | af_min_all (arr : Handle)
  | af_max_all (arr : Handle)
  | setChartAxesOverride (chart : Handle)
  | fg_set_chart_axes_limits (chart : Handle) (xmin xmax ymin ymax zmin zmax : Scalar)
  | fg_set_chart_axes_titles (chart : Handle) (xtitle ytitle ztitle : CStr)
  | fg_swap_window_buffers (wind : Handle)
  | fg_close_window (wind : Handle)
  | fg_show_window (wind : Handle)
  | fg_hide_window (wind : Handle)
  | fg_release_window (wind : Handle)
  | forgePlugin
  | getActiveStream
  | checkGraphicsInteropCapability
  | getPlotResources (plot : Handle)
  | cudaGraphicsMapResources (count : Nat) (res stream : Handle)
  | cudaGraphicsResourceGetMappedPointer (res : Handle)
  | cudaMemcpyAsync (dst src : Handle) (bytes : Nat) (kind : cudaMemcpyKind) (stream : Handle)
  | cudaGraphicsUnmapResources (count : Nat) (res stream : Handle)
  | CheckGL (msg : String)
  | POST_LAUNCH_CHECK
  | fg_get_plot_vertex_buffer (plot : Handle)
  | fg_get_plot_vertex_buffer_size (plot : Handle)
  | glBindBuffer (target : GLenum) (buffer : Nat)
  | glMapBuffer (target access : GLenum)
  | cudaStreamSynchronize (stream : Handle)
  | glUnmapBuffer (target : GLenum)
  deriving DecidableEq, Repr

/-- Calls into the Forge library (`fg_*`). -/
def Event.isForge : Event → Bool
  | .fg_create_window .. => true
  | .fg_set_window_position .. => true
  | .fg_set_window_title .. => true
  | .fg_set_window_size .. => true
  | .fg_set_chart_axes_limits .. => true
  | .fg_set_chart_axes_titles .. => true
  | .fg_swap_window_buffers .. => true
  | .fg_close_window .. => true
  | .fg_show_window .. => true
  | .fg_hide_window .. => true
  | .fg_release_window .. => true
  | .fg_get_plot_vertex_buffer .. => true
  | .fg_get_plot_vertex_buffer_size .. => true
  | _ => false

/-- Calls into the `ForgeManager` singleton. -/
def Event.isForgeManager : Event → Bool
  | .getInstance => true
  | .getMainWindow => true
  | .setWindowChartGrid .. => true
  | .getChart .. => true
  | .setChartAxesOverride .. => true
  | _ => false

/-- What the collaborators answer.  Entry points that are C functions return a
status code (and the values they store through their output pointers); C++
entry points either return or raise. -/
structure Env where
  -- whether the translation unit is compiled with `WITH_GRAPHICS` defined
  WITH_GRAPHICS : Bool
  -- `processException()`, the body of the `CATCHALL` handler
  processException : Exn → af_err
  -- `step_round(in, dir)`
  step_round : Scalar → Bool → Scalar
  getInstance : Except Exn Unit
  getMainWindow : Except Exn Handle
  fg_create_window : Int → Int → CStr → Handle → Bool → fg_err × Handle
  setWindowChartGrid : Handle → Int → Int → Except Exn Unit
  fg_set_window_position : Handle → Nat → Nat → fg_err
  fg_set_window_title : Handle → CStr → fg_err
  fg_set_window_size : Handle → Nat → Nat → fg_err
  getChart : Handle → Int → Int → fg_chart_type → Except Exn Handle
  af_min_all : Handle → af_err × Scalar
  af_max_all : Handle → af_err × Scalar
  setChartAxesOverride : Handle → Except Exn Unit
  fg_set_chart_axes_limits : Handle → Scalar → Scalar → Scalar → Scalar → Scalar → Scalar → fg_err
  fg_set_chart_axes_titles : Handle → CStr → CStr → CStr → fg_err
  fg_swap_window_buffers : Handle → fg_err
  -- `fg_close_window(out, wind)`: the status and the value `*out` holds afterwards,
  -- given the value it held before
  fg_close_window : Handle → Bool → fg_err × Bool
  fg_show_window : Handle → fg_err
  fg_hide_window : Handle → fg_err
  fg_release_window : Handle → fg_err
  forgePlugin : Except Exn Unit
  getActiveStream : Except Exn Handle
  checkGraphicsInteropCapability : Except Exn Bool
  -- `interopManager().getPlotResources(plot)`, reduced to the resource `res[0]`
  getPlotResources : Handle → Except Exn Handle
  -- the device pointer and byte size stored by `cudaGraphicsResourceGetMappedPointer`
  cudaGraphicsResourceGetMappedPointer : Handle → Handle × Nat
  cudaMemcpyAsync : Handle → Handle → Nat → cudaMemcpyKind → Handle → cudaError_t
  cudaStreamSynchronize : Handle → cudaError_t
  CheckGL : String → Except Exn Unit
  POST_LAUNCH_CHECK : Except Exn Unit
  fg_get_plot_vertex_buffer : Handle → fg_err × Nat
  fg_get_plot_vertex_buffer_size : Handle → fg_err × Nat
  glMapBuffer : GLenum → GLenum → Handle

/-! ## Programs: trace, output parameter, result -/

/-- The observable result of running a function: the calls it made, the final
value of its output parameter and either the returned value or the exception
that left the function. -/
structure Res (σ α : Type) where
  trace : List Event
  out : σ
  val : Except Exn α

/-- A function body, run from the initial value of its output parameter. -/
def Prog (σ α : Type) : Type := σ → Res σ α

namespace Prog

variable {σ α β : Type}

def ret (a : α) : Prog σ α := fun s => ⟨[], s, .ok a⟩

def raise (e : Exn) : Prog σ α := fun s => ⟨[], s, .error e⟩

def andThen (p : Prog σ α) (f : α → Prog σ β) : Prog σ β := fun s =>
  match p s with
  | ⟨t, o, .error e⟩ => ⟨t, o, .error e⟩
  | ⟨t, o, .ok a⟩ => ⟨t ++ (f a o).trace, (f a o).out, (f a o).val⟩

instance : Monad (Prog σ) where
  pure := ret
  bind := andThen

/-- A call to a C++ entry point: recorded, then it returns or raises. -/
def call (ev : Event) (r : Except Exn α) : Prog σ α := fun s => ⟨[ev], s, r⟩

/-- A call to a C entry point: recorded, it always returns. -/
def ccall (ev : Event) (r : α) : Prog σ α := fun s => ⟨[ev], s, .ok r⟩

/-- Read `*out`. -/
def getOut : Prog σ σ := fun s => ⟨[], s, .ok s⟩

/-- Store to `*out`. -/
def setOut (v : σ) : Prog σ Unit := fun _ => ⟨[], v, .ok ()⟩

/-- The block `try { body } catch(...) { handler }`. -/
def tryCatch (body : Prog σ α) (handler : Prog σ α) : Prog σ α := fun s =>
  match body s with
  | ⟨t, o, .error _⟩ => ⟨t ++ (handler o).trace, (handler o).out, (handler o).val⟩
  | r => r

end Prog

open Prog

/-- The statement `std::cerr << msg << std::endl`. -/
def cerr {σ : Type} (msg : String) : Prog σ Unit := ccall (.cerr msg) ()

/-- Modelled from the spec: the `FG_CHECK` macro (graphics_common.hpp) is not
part of the sources; it raises when the wrapped Forge call reports a status
other than `FG_ERR_NONE` and is a no-op otherwise. -/
def FG_CHECK {σ : Type} (e : fg_err) : Prog σ Unit :=
  if e = .FG_ERR_NONE then ret () else raise (.fg_check e)

/-- Modelled from the spec: the `AF_CHECK` macro (err_common.hpp) is not part
of the sources; it raises when the wrapped call reports a status other than
`AF_SUCCESS`. -/
def AF_CHECK {σ : Type} (e : af_err) : Prog σ Unit :=
  if e = .AF_SUCCESS then ret () else raise (.af_check e)

/-- Modelled from the spec: the `CUDA_CHECK` macro (err_cuda.hpp) is not part
of the sources; it raises when the wrapped call reports a status other than
`cudaSuccess`. -/
def CUDA_CHECK {σ : Type} (e : cudaError_t) : Prog σ Unit :=
  if e = .cudaSuccess then ret () else raise (.cuda_check e)

/-- Modelled from the spec: the `AF_RETURN_ERROR` macro (err_common.hpp) is not
part of the sources; it makes the enclosing function return the given code. -/
def AF_RETURN_ERROR {σ : Type} (_msg : String) (err : af_err) : Prog σ af_err :=
  ret err

/-- Modelled from the spec: the `CATCHALL` macro (err_common.hpp) is not part
of the sources.  `try { body } CATCHALL; rest`: an exception raised in `body`
makes the enclosing function return `processException()`; a `return r` inside
`body` (`some r`) returns `r`; when `body` runs to its end (`none`) control
continues with `rest`. -/
def TRY_CATCHALL {σ : Type} (env : Env) (body : Prog σ (Option af_err))
    (rest : Prog σ af_err) : Prog σ af_err := fun s =>
  match body s with
  | ⟨t, o, .error e⟩ => ⟨t, o, .ok (env.processException e)⟩
  | ⟨t, o, .ok (some r)⟩ => ⟨t, o, .ok r⟩
  | ⟨t, o, .ok none⟩ => ⟨t ++ (rest o).trace, (rest o).out, (rest o).val⟩

/-- The message of the null-window guard. -/
def notValid : String := "Not a valid window"

/-- The message of every function compiled without `WITH_GRAPHICS`. -/
def noGfx : String := "ArrayFire compiled without graphics support"

/-! ## `src/api/c/window.cpp` -/

def af_create_window (env : Env) (width height : Int) (title : CStr) : Prog Handle af_err :=
  if env.WITH_GRAPHICS then
    TRY_CATCHALL env (do
      call .getInstance env.getInstance
      let mainWnd ← tryCatch (call .getMainWindow env.getMainWindow)
        (do cerr "OpenGL context creation failed"; pure 0)
      if mainWnd = 0 then do
        cerr notValid
        pure (some .AF_SUCCESS)
      else do
        let r ← ccall (.fg_create_window width height title mainWnd false)
          (env.fg_create_window width height title mainWnd false)
        FG_CHECK r.1
        let temp := r.2
        call (.setWindowChartGrid temp 1 1) (env.setWindowChartGrid temp 1 1)
        setOut temp
        pure none)
      (pure .AF_SUCCESS)
  else AF_RETURN_ERROR noGfx .AF_ERR_NO_GFX

def af_set_position (env : Env) (wind : Handle) (x y : Nat) : Prog Unit af_err :=
  if env.WITH_GRAPHICS then
    if wind = 0 then do
      cerr notValid
      pure .AF_SUCCESS
    else do
      FG_CHECK (← ccall (.fg_set_window_position wind x y) (env.fg_set_window_position wind x y))
      pure .AF_SUCCESS
  else AF_RETURN_ERROR noGfx .AF_ERR_NO_GFX

def af_set_title (env : Env) (wind : Handle) (title : CStr) : Prog Unit af_err :=
  if env.WITH_GRAPHICS then
    if wind = 0 then do
      cerr notValid
      pure .AF_SUCCESS
    else do
      FG_CHECK (← ccall (.fg_set_window_title wind title) (env.fg_set_window_title wind title))
      pure .AF_SUCCESS
  else AF_RETURN_ERROR noGfx .AF_ERR_NO_GFX

def af_set_size (env : Env) (wind : Handle) (w h : Nat) : Prog Unit af_err :=
  if env.WITH_GRAPHICS then
    if wind = 0 then do
      cerr notValid
      pure .AF_SUCCESS
    else do
      FG_CHECK (← ccall (.fg_set_window_size wind w h) (env.fg_set_window_size wind w h))
      pure .AF_SUCCESS
  else AF_RETURN_ERROR noGfx .AF_ERR_NO_GFX

def af_grid (env : Env) (wind : Handle) (rows cols : Int) : Prog Unit af_err :=
  if env.WITH_GRAPHICS then
    if wind = 0 then do
      cerr notValid
      pure .AF_SUCCESS
    else
      TRY_CATCHALL env (do
        call .getInstance env.getInstance
        call (.setWindowChartGrid wind rows cols) (env.setWindowChartGrid wind rows cols)
        pure none)
        (pure .AF_SUCCESS)
  else AF_RETURN_ERROR noGfx .AF_ERR_NO_GFX

def af_set_axes_limits_compute (env : Env) (window x y z : Handle) (exact : Bool)
    (props : af_cell) : Prog Unit af_err :=
  if env.WITH_GRAPHICS then
    if window = 0 then do
      cerr notValid
      pure .AF_SUCCESS
    else
      TRY_CATCHALL env (do
        call .getInstance env.getInstance
        let ctype : fg_chart_type := if z ≠ 0 then .FG_CHART_3D else .FG_CHART_2D
        let chart ←
          (if props.col > -1 ∧ props.row > -1 then
            call (.getChart window props.row props.col ctype)
              (env.getChart window props.row props.col ctype)
          else
            call (.getChart window 0 0 ctype) (env.getChart window 0 0 ctype))
        -- `xmin`, `xmax`, `ymin`, `ymax` start at -1 and 1 as well; each is
        -- overwritten through its pointer by the reduction that follows
        let zmin0 : Scalar := -1
        let zmax0 : Scalar := 1
        let rxmin ← ccall (.af_min_all x) (env.af_min_all x)
        AF_CHECK rxmin.1
        let xmin := rxmin.2
        let rxmax ← ccall (.af_max_all x) (env.af_max_all x)
        AF_CHECK rxmax.1
        let xmax := rxmax.2
        let rymin ← ccall (.af_min_all y) (env.af_min_all y)
        AF_CHECK rymin.1
        let ymin := rymin.2
        let rymax ← ccall (.af_max_all y) (env.af_max_all y)
        AF_CHECK rymax.1
        let ymax := rymax.2
        let zs ←
          (if ctype = .FG_CHART_3D then do
            let rzmin ← ccall (.af_min_all z) (env.af_min_all z)
            AF_CHECK rzmin.1
            let rzmax ← ccall (.af_max_all z) (env.af_max_all z)
            AF_CHECK rzmax.1
            pure (rzmin.2, rzmax.2)
          else
            pure (zmin0, zmax0))
        let zmin := zs.1
        let zmax := zs.2
        let lim : Scalar × Scalar × Scalar × Scalar × Scalar × Scalar :=
          if !exact then
            (env.step_round xmin false, env.step_round xmax true,
             env.step_round ymin false, env.step_round ymax true,
             env.step_round zmin false, env.step_round zmax true)
          else (xmin, xmax, ymin, ymax, zmin, zmax)
        call (.setChartAxesOverride chart) (env.setChartAxesOverride chart)
        FG_CHECK (← ccall
          (.fg_set_chart_axes_limits chart lim.1 lim.2.1 lim.2.2.1 lim.2.2.2.1 lim.2.2.2.2.1 lim.2.2.2.2.2)
          (env.fg_set_chart_axes_limits chart lim.1 lim.2.1 lim.2.2.1 lim.2.2.2.1 lim.2.2.2.2.1 lim.2.2.2.2.2))
        pure none)
        (pure .AF_SUCCESS)
  else AF_RETURN_ERROR noGfx .AF_ERR_NO_GFX

def af_set_axes_limits_2d (env : Env) (window : Handle) (xmin xmax ymin ymax : Scalar)
    (exact : Bool) (props : af_cell) : Prog Unit af_err :=
  if env.WITH_GRAPHICS then
    if window = 0 then do
      cerr notValid
      pure .AF_SUCCESS
    else
      TRY_CATCHALL env (do
        call .getInstance env.getInstance
        let ctype : fg_chart_type := .FG_CHART_2D
        let chart ←
          (if props.col > -1 ∧ props.row > -1 then
            call (.getChart window props.row props.col ctype)
              (env.getChart window props.row props.col ctype)
          else
            call (.getChart window 0 0 ctype) (env.getChart window 0 0 ctype))
        let lim : Scalar × Scalar × Scalar × Scalar :=
          if !exact then
            (env.step_round xmin false, env.step_round xmax true,
             env.step_round ymin false, env.step_round ymax true)
          else (xmin, xmax, ymin, ymax)
        call (.setChartAxesOverride chart) (env.setChartAxesOverride chart)
        FG_CHECK (← ccall
          (.fg_set_chart_axes_limits chart lim.1 lim.2.1 lim.2.2.1 lim.2.2.2 0 0)
          (env.fg_set_chart_axes_limits chart lim.1 lim.2.1 lim.2.2.1 lim.2.2.2 0 0))
        pure none)
        (pure .AF_SUCCESS)
  else AF_RETURN_ERROR noGfx .AF_ERR_NO_GFX

def af_set_axes_limits_3d (env : Env) (window : Handle)
    (xmin xmax ymin ymax zmin zmax : Scalar) (exact : Bool) (props : af_cell) :
    Prog Unit af_err :=
  if env.WITH_GRAPHICS then
    if window = 0 then do
      cerr notValid
      pure .AF_SUCCESS
    else
      TRY_CATCHALL env (do
        call .getInstance env.getInstance
        let ctype : fg_chart_type := .FG_CHART_3D
        let chart ←
          (if props.col > -1 ∧ props.row > -1 then
            call (.getChart window props.row props.col ctype)
              (env.getChart window props.row props.col ctype)
          else
            call (.getChart window 0 0 ctype) (env.getChart window 0 0 ctype))
        let lim : Scalar × Scalar × Scalar × Scalar × Scalar × Scalar :=
          if !exact then
            (env.step_round xmin false, env.step_round xmax true,
             env.step_round ymin false, env.step_round ymax true,
             env.step_round zmin false, env.step_round zmax true)
          else (xmin, xmax, ymin, ymax, zmin, zmax)
        call (.setChartAxesOverride chart) (env.setChartAxesOverride chart)
        FG_CHECK (← ccall
          (.fg_set_chart_axes_limits chart lim.1 lim.2.1 lim.2.2.1 lim.2.2.2.1 lim.2.2.2.2.1 lim.2.2.2.2.2)
          (env.fg_set_chart_axes_limits chart lim.1 lim.2.1 lim.2.2.1 lim.2.2.2.1 lim.2.2.2.2.1 lim.2.2.2.2.2))
        pure none)
        (pure .AF_SUCCESS)
  else AF_RETURN_ERROR noGfx .AF_ERR_NO_GFX

def af_set_axes_titles (env : Env) (window : Handle) (xtitle ytitle ztitle : CStr)
    (props : af_cell) : Prog Unit af_err :=
  if env.WITH_GRAPHICS then
    if window = 0 then do
      cerr notValid
      pure .AF_SUCCESS
    else
      TRY_CATCHALL env (do
        call .getInstance env.getInstance
        let ctype : fg_chart_type := if ztitle.isSome then .FG_CHART_3D else .FG_CHART_2D
        let chart ←
          (if props.col > -1 ∧ props.row > -1 then
            call (.getChart window props.row props.col ctype)
              (env.getChart window props.row props.col ctype)
          else
            call (.getChart window 0 0 ctype) (env.getChart window 0 0 ctype))
        FG_CHECK (← ccall (.fg_set_chart_axes_titles chart xtitle ytitle ztitle)
          (env.fg_set_chart_axes_titles chart xtitle ytitle ztitle))
        pure none)
        (pure .AF_SUCCESS)
  else AF_RETURN_ERROR noGfx .AF_ERR_NO_GFX

def af_show (env : Env) (wind : Handle) : Prog Unit af_err :=
  if env.WITH_GRAPHICS then
    if wind = 0 then do
      cerr notValid
      pure .AF_SUCCESS
    else do
      FG_CHECK (← ccall (.fg_swap_window_buffers wind) (env.fg_swap_window_buffers wind))
      pure .AF_SUCCESS
  else AF_RETURN_ERROR noGfx .AF_ERR_NO_GFX

def af_is_window_closed (env : Env) (wind : Handle) : Prog Bool af_err :=
  if env.WITH_GRAPHICS then
    if wind = 0 then do
      cerr notValid
      pure .AF_SUCCESS
    else do
      let old ← getOut
      let r ← ccall (.fg_close_window wind) (env.fg_close_window wind old)
      setOut r.2
      FG_CHECK r.1
      pure .AF_SUCCESS
  else AF_RETURN_ERROR noGfx .AF_ERR_NO_GFX

def af_set_visibility (env : Env) (wind : Handle) (is_visible : Bool) : Prog Unit af_err :=
  if env.WITH_GRAPHICS then
    if wind = 0 then do
      cerr notValid
      pure .AF_SUCCESS
    else do
      if is_visible then
        FG_CHECK (← ccall (.fg_show_window wind) (env.fg_show_window wind))
      else
        FG_CHECK (← ccall (.fg_hide_window wind) (env.fg_hide_window wind))
      pure .AF_SUCCESS
  else AF_RETURN_ERROR noGfx .AF_ERR_NO_GFX

def af_destroy_window (env : Env) (wind : Handle) : Prog Unit af_err :=
  if env.WITH_GRAPHICS then
    if wind = 0 then do
      cerr notValid
      pure .AF_SUCCESS
    else
      TRY_CATCHALL env (do
        call .getInstance env.getInstance
        call (.setWindowChartGrid wind 0 0) (env.setWindowChartGrid wind 0 0)
        pure none)
        (do
          FG_CHECK (← ccall (.fg_release_window wind) (env.fg_release_window wind))
          pure .AF_SUCCESS)
  else AF_RETURN_ERROR noGfx .AF_ERR_NO_GFX

/-! ## `src/backend/cuda/plot.cpp` -/

/-- The body of `copy_plot<T>`; the file is compiled only with `WITH_GRAPHICS`. -/
def copy_plot (env : Env) (P : Array) (plot : Handle) : Prog Unit Unit := do
  call .forgePlugin env.forgePlugin
  let stream ← call .getActiveStream env.getActiveStream
  if (← call .checkGraphicsInteropCapability env.checkGraphicsInteropCapability) then
    let d_P := P.get
    let res ← call (.getPlotResources plot) (env.getPlotResources plot)
    ccall (.cudaGraphicsMapResources 1 res stream) ()
    let m ← ccall (.cudaGraphicsResourceGetMappedPointer res)
      (env.cudaGraphicsResourceGetMappedPointer res)
    let d_vbo := m.1
    let bytes := m.2
    let _ ← ccall (.cudaMemcpyAsync d_vbo d_P bytes .cudaMemcpyDeviceToDevice stream)
      (env.cudaMemcpyAsync d_vbo d_P bytes .cudaMemcpyDeviceToDevice stream)
    ccall (.cudaGraphicsUnmapResources 1 res stream) ()
    call (.CheckGL "After cuda resource copy") (env.CheckGL "After cuda resource copy")
    call .POST_LAUNCH_CHECK env.POST_LAUNCH_CHECK
  else
    let rb ← ccall (.fg_get_plot_vertex_buffer plot) (env.fg_get_plot_vertex_buffer plot)
    FG_CHECK rb.1
    let buffer := rb.2
    let rs ← ccall (.fg_get_plot_vertex_buffer_size plot) (env.fg_get_plot_vertex_buffer_size plot)
    FG_CHECK rs.1
    let bytes := rs.2
    call (.CheckGL "Begin CUDA fallback-resource copy")
      (env.CheckGL "Begin CUDA fallback-resource copy")
    ccall (.glBindBuffer .GL_ARRAY_BUFFER buffer) ()
    let ptr ← ccall (.glMapBuffer .GL_ARRAY_BUFFER .GL_WRITE_ONLY)
      (env.glMapBuffer .GL_ARRAY_BUFFER .GL_WRITE_ONLY)
    if ptr ≠ 0 then
      CUDA_CHECK (← ccall (.cudaMemcpyAsync ptr P.get bytes .cudaMemcpyDeviceToHost stream)
        (env.cudaMemcpyAsync ptr P.get bytes .cudaMemcpyDeviceToHost stream))
      CUDA_CHECK (← ccall (.cudaStreamSynchronize stream) (env.cudaStreamSynchronize stream))
      ccall (.glUnmapBuffer .GL_ARRAY_BUFFER) ()
    ccall (.glBindBuffer .GL_ARRAY_BUFFER 0) ()
    call (.CheckGL "End CUDA fallback-resource copy")
      (env.CheckGL "End CUDA fallback-resource copy")

/-! ## Sample environments -/

/-- An environment in which every collaborator succeeds: graphics are compiled
in, the main window is handle 1, Forge creates window 42, every chart is
handle 9, reductions give the range from -3 to 5, and `step_round` is the
simplest rounding that tells the two directions apart: down gives -10, up
gives 10. -/
def Env.nominal : Env where
  WITH_GRAPHICS := true
  processException := fun _ => .AF_ERR_OTHER 999
  step_round := fun _ up => if up then 10 else -10
  getInstance := .ok ()
  getMainWindow := .ok 1
  fg_create_window := fun _ _ _ _ _ => (.FG_ERR_NONE, 42)
  setWindowChartGrid := fun _ _ _ => .ok ()
  fg_set_window_position := fun _ _ _ => .FG_ERR_NONE
  fg_set_window_title := fun _ _ => .FG_ERR_NONE
  fg_set_window_size := fun _ _ _ => .FG_ERR_NONE
  getChart := fun _ _ _ _ => .ok 9
  af_min_all := fun _ => (.AF_SUCCESS, -3)
  af_max_all := fun _ => (.AF_SUCCESS, 5)
  setChartAxesOverride := fun _ => .ok ()
  fg_set_chart_axes_limits := fun _ _ _ _ _ _ _ => .FG_ERR_NONE
  fg_set_chart_axes_titles := fun _ _ _ _ => .FG_ERR_NONE
  fg_swap_window_buffers := fun _ => .FG_ERR_NONE
  fg_close_window := fun _ _ => (.FG_ERR_NONE, true)
  fg_show_window := fun _ => .FG_ERR_NONE
  fg_hide_window := fun _ => .FG_ERR_NONE
  fg_release_window := fun _ => .FG_ERR_NONE
  forgePlugin := .ok ()
  getActiveStream := .ok 3
  checkGraphicsInteropCapability := .ok true
  getPlotResources := fun _ => .ok 11
  cudaGraphicsResourceGetMappedPointer := fun _ => (500, 64)
  cudaMemcpyAsync := fun _ _ _ _ _ => .cudaSuccess
  cudaStreamSynchronize := fun _ => .cudaSuccess
  CheckGL := fun _ => .ok ()
  POST_LAUNCH_CHECK := .ok ()
  fg_get_plot_vertex_buffer := fun _ => (.FG_ERR_NONE, 4)
  fg_get_plot_vertex_buffer_size := fun _ => (.FG_ERR_NONE, 96)
  glMapBuffer := fun _ _ => 700

/-- The nominal environment compiled without `WITH_GRAPHICS`. -/
def Env.headless : Env := { Env.nominal with WITH_GRAPHICS := false }

/-- The environment in which `setWindowChartGrid` raises. -/
def Env.gridThrows : Env :=
  { Env.nominal with setWindowChartGrid := fun _ _ _ => .error (.thrown 1) }

/-- The nominal environment on a device without graphics interop. -/
def Env.fallback : Env :=
  { Env.nominal with checkGraphicsInteropCapability := .ok false }

/-- The fallback environment in which `glMapBuffer` returns the null pointer. -/
def Env.mapFails : Env :=
  { Env.fallback with glMapBuffer := fun _ _ => 0 }

/-- The fallback environment in which Forge fails to give the vertex buffer. -/
def Env.vboFails : Env :=
  { Env.fallback with fg_get_plot_vertex_buffer := fun _ => (.FG_ERR 1, 0) }

/-- The fallback environment in which `cudaMemcpyAsync` reports an error. -/
def Env.copyFails : Env :=
  { Env.fallback with cudaMemcpyAsync := fun _ _ _ _ _ => .cudaError 1 }

/-! ## Specification-side predicates -/

/-- What a call on a null window must look like: it reports `AF_SUCCESS`, none
of its calls goes to Forge or the `ForgeManager`, and the output parameter holds
the value it held before. -/
def NullWindowNoOp {σ : Type} (s : σ) (r : Res σ af_err) : Prop :=
  r.val = .ok .AF_SUCCESS ∧
  (∀ ev ∈ r.trace, ev.isForge = false ∧ ev.isForgeManager = false) ∧
  r.out = s

/-- What a call in a build without graphics must look like: it returns
`AF_ERR_NO_GFX`, which is not `AF_SUCCESS`, and the output parameter holds the
value it held before. -/
def NoGfxResult {σ : Type} (s : σ) (r : Res σ af_err) : Prop :=
  r.val = .ok .AF_ERR_NO_GFX ∧ r.val ≠ .ok .AF_SUCCESS ∧ r.out = s

/-- The cell addressed by `props`, in the words of the specification: the cell
(row, col) when both coordinates are greater than -1, the cell (0, 0) in every
other case. -/
def selectedCell (props : af_cell) : Int × Int :=
  if props.row > -1 ∧ props.col > -1 then (props.row, props.col) else (0, 0)

/-- The reductions `af_min_all` and `af_max_all`. -/
def Event.isReduction : Event → Bool
  | .af_min_all .. => true
  | .af_max_all .. => true
  | _ => false

/-- The result `r` with the calls `t` made before it. -/
def Res.prepend {σ α : Type} (t : List Event) (r : Res σ α) : Res σ α :=
  ⟨t ++ r.trace, r.out, r.val⟩

/-- The chart of a lookup that returned, the null chart for one that raised. -/
def chartOf (r : Except Exn Handle) : Handle :=
  match r with
  | .ok ch => ch
  | .error _ => 0

/-- The chart type `af_set_axes_limits_compute` asks for. -/
def computeCtype (z : Handle) : fg_chart_type :=
  if z ≠ 0 then .FG_CHART_3D else .FG_CHART_2D

/-- The calls `af_set_axes_limits_compute` makes, in order, before it touches
the axes of the chart: the manager, the chart lookup, the reductions. -/
def computePrelude (window x y z : Handle) (props : af_cell) : List Event :=
  [.getInstance,
   .getChart window (selectedCell props).1 (selectedCell props).2 (computeCtype z),
   .af_min_all x, .af_max_all x, .af_min_all y, .af_max_all y] ++
  (if z ≠ 0 then [.af_min_all z, .af_max_all z] else [])

/-- A limit as `af_set_axes_limits_compute` forwards it: untouched when `exact`,
passed through `step_round` in direction `up` otherwise. -/
def forwarded (env : Env) (exact : Bool) (v : Scalar) (up : Bool) : Scalar :=
  if exact then v else env.step_round v up

/-- The call of `fg_set_chart_axes_limits` that ends a complete run of
`af_set_axes_limits_compute` on chart `ch`. -/
def computeLimitsCall (env : Env) (ch x y z : Handle) (exact : Bool) : Event :=
  .fg_set_chart_axes_limits ch
    (forwarded env exact (env.af_min_all x).2 false)
    (forwarded env exact (env.af_max_all x).2 true)
    (forwarded env exact (env.af_min_all y).2 false)
    (forwarded env exact (env.af_max_all y).2 true)
    (forwarded env exact (if z ≠ 0 then (env.af_min_all z).2 else -1) false)
    (forwarded env exact (if z ≠ 0 then (env.af_max_all z).2 else 1) true)

/-- The status Forge reports for `computeLimitsCall`. -/
def computeLimitsStatus (env : Env) (ch x y z : Handle) (exact : Bool) : fg_err :=
  env.fg_set_chart_axes_limits ch
    (forwarded env exact (env.af_min_all x).2 false)
    (forwarded env exact (env.af_max_all x).2 true)
    (forwarded env exact (env.af_min_all y).2 false)
    (forwarded env exact (env.af_max_all y).2 true)
    (forwarded env exact (if z ≠ 0 then (env.af_min_all z).2 else -1) false)
    (forwarded env exact (if z ≠ 0 then (env.af_max_all z).2 else 1) true)

/-- Every collaborator that `af_set_axes_limits_compute` consults before
`fg_set_chart_axes_limits` answers without an error. -/
def ComputeAllOk (env : Env) (window x y z : Handle) (props : af_cell) (ch : Handle) : Prop :=
  env.getInstance = .ok () ∧
  env.getChart window (selectedCell props).1 (selectedCell props).2 (computeCtype z) = .ok ch ∧
  (env.af_min_all x).1 = .AF_SUCCESS ∧ (env.af_max_all x).1 = .AF_SUCCESS ∧
  (env.af_min_all y).1 = .AF_SUCCESS ∧ (env.af_max_all y).1 = .AF_SUCCESS ∧
  (z ≠ 0 → (env.af_min_all z).1 = .AF_SUCCESS ∧ (env.af_max_all z).1 = .AF_SUCCESS) ∧
  env.setChartAxesOverride ch = .ok ()

/-- The calls of the fallback path of `copy_plot` up to and including
`glMapBuffer`. -/
def fallbackPrelude (env : Env) (plot : Handle) : List Event :=
  [.forgePlugin, .getActiveStream, .checkGraphicsInteropCapability,
   .fg_get_plot_vertex_buffer plot, .fg_get_plot_vertex_buffer_size plot,
   .CheckGL "Begin CUDA fallback-resource copy",
   .glBindBuffer .GL_ARRAY_BUFFER (env.fg_get_plot_vertex_buffer plot).2,
   .glMapBuffer .GL_ARRAY_BUFFER .GL_WRITE_ONLY]

/-- The device-to-host copy of the fallback path of `copy_plot`. -/
def fallbackCopy (env : Env) (P : Array) (plot st : Handle) : Event :=
  .cudaMemcpyAsync (env.glMapBuffer .GL_ARRAY_BUFFER .GL_WRITE_ONLY) P.get
    (env.fg_get_plot_vertex_buffer_size plot).2 .cudaMemcpyDeviceToHost st

/-- The status CUDA reports for `fallbackCopy`. -/
def fallbackCopyStatus (env : Env) (P : Array) (plot st : Handle) : cudaError_t :=
  env.cudaMemcpyAsync (env.glMapBuffer .GL_ARRAY_BUFFER .GL_WRITE_ONLY) P.get
    (env.fg_get_plot_vertex_buffer_size plot).2 .cudaMemcpyDeviceToHost st

/-- The calls of the interop path of `copy_plot` from the resource lookup to the
OpenGL check, for stream `st` and resource `res`. -/
def interopCalls (env : Env) (P : Array) (plot st res : Handle) : List Event :=
  [.forgePlugin, .getActiveStream, .checkGraphicsInteropCapability, .getPlotResources plot,
   .cudaGraphicsMapResources 1 res st, .cudaGraphicsResourceGetMappedPointer res,
   .cudaMemcpyAsync (env.cudaGraphicsResourceGetMappedPointer res).1 P.get
     (env.cudaGraphicsResourceGetMappedPointer res).2 .cudaMemcpyDeviceToDevice st,
   .cudaGraphicsUnmapResources 1 res st, .CheckGL "After cuda resource copy"]

/-- The copies `cudaMemcpyAsync`. -/
def Event.isMemcpy : Event → Bool
  | .cudaMemcpyAsync .. => true
  | _ => false

/-- The calls that belong to the host-staged strategy only. -/
def Event.isHostStaging : Event → Bool
  | .fg_get_plot_vertex_buffer .. => true
  | .glBindBuffer .. => true
  | .glMapBuffer .. => true
  | _ => false

/-- The calls that belong to the interop strategy only. -/
def Event.isInteropMapping : Event → Bool
  | .cudaGraphicsMapResources .. => true
  | .cudaGraphicsUnmapResources .. => true
  | _ => false

/-! ## Unfolding lemmas for programs -/

section Unfold

variable {σ α β : Type}

@[simp] theorem Prog.pure_run (a : α) (s : σ) :
    (pure a : Prog σ α) s = ⟨[], s, .ok a⟩ := rfl

@[simp] theorem Prog.ret_run (a : α) (s : σ) :
    (Prog.ret a : Prog σ α) s = ⟨[], s, .ok a⟩ := rfl

@[simp] theorem Prog.raise_run (e : Exn) (s : σ) :
    (Prog.raise e : Prog σ α) s = ⟨[], s, .error e⟩ := rfl

@[simp] theorem Prog.call_run (ev : Event) (r : Except Exn α) (s : σ) :
    (Prog.call ev r : Prog σ α) s = ⟨[ev], s, r⟩ := rfl

@[simp] theorem Prog.ccall_run (ev : Event) (r : α) (s : σ) :
    (Prog.ccall ev r : Prog σ α) s = ⟨[ev], s, .ok r⟩ := rfl

@[simp] theorem Prog.getOut_run (s : σ) :
    (Prog.getOut : Prog σ σ) s = ⟨[], s, .ok s⟩ := rfl

@[simp] theorem Prog.setOut_run (v s : σ) :
    (Prog.setOut v : Prog σ Unit) s = ⟨[], v, .ok ()⟩ := rfl

@[simp] theorem cerr_run (msg : String) (s : σ) :
    (cerr msg : Prog σ Unit) s = ⟨[.cerr msg], s, .ok ()⟩ := rfl

@[simp] theorem Prog.bind_run (p : Prog σ α) (f : α → Prog σ β) (s : σ) :
    (p >>= f) s = Prog.andThen p f s := rfl

theorem Res.prepend_mk (t t' : List Event) (o : σ) (v : Except Exn α) :
    Res.prepend t (⟨t', o, v⟩ : Res σ α) = ⟨t ++ t', o, v⟩ := rfl

theorem Prog.andThen_ccall (ev : Event) (r : α) (f : α → Prog σ β) (s : σ) :
    Prog.andThen (Prog.ccall ev r) f s = Res.prepend [ev] (f r s) := rfl

theorem Prog.andThen_call_ok (ev : Event) (a : α) (f : α → Prog σ β) (s : σ) :
    Prog.andThen (Prog.call ev (.ok a)) f s = Res.prepend [ev] (f a s) := rfl

theorem Prog.andThen_call_error (ev : Event) (e : Exn) (f : α → Prog σ β) (s : σ) :
    Prog.andThen (Prog.call ev (.error e : Except Exn α)) f s = ⟨[ev], s, .error e⟩ := rfl

theorem Prog.andThen_ret (a : α) (f : α → Prog σ β) (s : σ) :
    Prog.andThen (Prog.ret a) f s = f a s := rfl

theorem Prog.andThen_pure (a : α) (f : α → Prog σ β) (s : σ) :
    Prog.andThen (pure a) f s = f a s := rfl

theorem Prog.andThen_FG_CHECK (e : fg_err) (f : Unit → Prog σ β) (s : σ) :
    Prog.andThen (FG_CHECK e) f s =
      if e = .FG_ERR_NONE then f () s else ⟨[], s, .error (.fg_check e)⟩ := by
  unfold FG_CHECK
  split_ifs <;> rfl

theorem Prog.andThen_AF_CHECK (e : af_err) (f : Unit → Prog σ β) (s : σ) :
    Prog.andThen (AF_CHECK e) f s =
      if e = .AF_SUCCESS then f () s else ⟨[], s, .error (.af_check e)⟩ := by
  unfold AF_CHECK
  split_ifs <;> rfl

theorem Prog.andThen_CUDA_CHECK (e : cudaError_t) (f : Unit → Prog σ β) (s : σ) :
    Prog.andThen (CUDA_CHECK e) f s =
      if e = .cudaSuccess then f () s else ⟨[], s, .error (.cuda_check e)⟩ := by
  unfold CUDA_CHECK
  split_ifs <;> rfl

theorem Prog.andThen_ite (c : Prop) [Decidable c] (p q : Prog σ α) (f : α → Prog σ β) (s : σ) :
    Prog.andThen (if c then p else q) f s =
      if c then Prog.andThen p f s else Prog.andThen q f s := by
  split_ifs <;> rfl

theorem Prog.andThen_assoc {γ : Type} (p : Prog σ α) (g : α → Prog σ β) (f : β → Prog σ γ)
    (s : σ) :
    Prog.andThen (Prog.andThen p g) f s = Prog.andThen p (fun a => Prog.andThen (g a) f) s := by
  unfold Prog.andThen
  rcases p s with ⟨t, o, e | a⟩
  · rfl
  · simp only
    rcases g a o with ⟨t', o', e | b⟩ <;> simp

theorem Prog.bind_eq (p : Prog σ α) (f : α → Prog σ β) :
    (p >>= f) = Prog.andThen p f := rfl

end Unfold

/-- The chart lookup shared by the four axis functions addresses the cell
`selectedCell props`. -/
theorem getChart_select {σ : Type} (env : Env) (window : Handle) (props : af_cell)
    (ctype : fg_chart_type) :
    (if props.col > -1 ∧ props.row > -1 then
        (Prog.call (.getChart window props.row props.col ctype)
          (env.getChart window props.row props.col ctype) : Prog σ Handle)
      else Prog.call (.getChart window 0 0 ctype) (env.getChart window 0 0 ctype)) =
    Prog.call (.getChart window (selectedCell props).1 (selectedCell props).2 ctype)
      (env.getChart window (selectedCell props).1 (selectedCell props).2 ctype) := by
  unfold selectedCell
  by_cases h1 : props.col > -1 <;> by_cases h2 : props.row > -1 <;> simp [h1, h2]


/-- Symbolic execution of `af_set_axes_limits_compute` on a non-null window:
a complete run makes the prelude calls, overrides the axes and sets the limits;
a run cut short by an exception makes an initial part of the prelude calls and
the override, and returns what `processException` makes of the exception. -/
theorem compute_outcomes (env : Env) (window x y z : Handle) (exact : Bool) (props : af_cell)
    (hg : env.WITH_GRAPHICS = true) (hw : window ≠ 0) :
    (∀ ch, ComputeAllOk env window x y z props ch →
      (af_set_axes_limits_compute env window x y z exact props ()).trace =
        computePrelude window x y z props ++
          [.setChartAxesOverride ch, computeLimitsCall env ch x y z exact] ∧
      (af_set_axes_limits_compute env window x y z exact props ()).val =
        .ok (if computeLimitsStatus env ch x y z exact = .FG_ERR_NONE then .AF_SUCCESS
          else env.processException (.fg_check (computeLimitsStatus env ch x y z exact)))) ∧
    ((¬ ∃ ch, ComputeAllOk env window x y z props ch) →
      (af_set_axes_limits_compute env window x y z exact props ()).trace <+:
        computePrelude window x y z props ++
          [.setChartAxesOverride (chartOf (env.getChart window (selectedCell props).1
            (selectedCell props).2 (computeCtype z)))] ∧
      ∃ e, (af_set_axes_limits_compute env window x y z exact props ()).val =
        .ok (env.processException e)) ∧
    (env.getInstance = .ok () →
      [.getInstance,
       .getChart window (selectedCell props).1 (selectedCell props).2 (computeCtype z)] <+:
        (af_set_axes_limits_compute env window x y z exact props ()).trace) ∧
    (∀ ch, Event.setChartAxesOverride ch ∈
        (af_set_axes_limits_compute env window x y z exact props ()).trace →
      env.getChart window (selectedCell props).1 (selectedCell props).2 (computeCtype z)
        = .ok ch) := by
  generalize hR : af_set_axes_limits_compute env window x y z exact props () = R
  unfold af_set_axes_limits_compute at hR
  simp only [getChart_select] at hR
  rcases hI : env.getInstance with ex | u
  · simp [hg, hw, hI, TRY_CATCHALL, Prog.andThen] at hR
    subst hR
    simp [ComputeAllOk, computePrelude, hI]
  by_cases hz : z = 0
  · rcases hC : env.getChart window (selectedCell props).1 (selectedCell props).2
        .FG_CHART_2D with ex | ch0
    · simp [hg, hw, hI, hC, hz, TRY_CATCHALL, Prog.bind_eq, Prog.andThen_ccall, Prog.andThen_call_ok, Prog.andThen_call_error,
        Prog.andThen_ret, Prog.andThen_pure, Prog.andThen_AF_CHECK, Prog.andThen_FG_CHECK,
        Prog.andThen_ite, Prog.andThen_assoc, Res.prepend_mk] at hR
      subst hR
      simp [ComputeAllOk, computePrelude, computeCtype, chartOf, hI, hC, hz]
    by_cases h1 : (env.af_min_all x).1 = .AF_SUCCESS
    swap
    · simp [hg, hw, hI, hC, hz, h1, TRY_CATCHALL, Prog.bind_eq, Prog.andThen_ccall, Prog.andThen_call_ok, Prog.andThen_call_error,
        Prog.andThen_ret, Prog.andThen_pure, Prog.andThen_AF_CHECK, Prog.andThen_FG_CHECK,
        Prog.andThen_ite, Prog.andThen_assoc, Res.prepend_mk] at hR
      subst hR
      simp [ComputeAllOk, computePrelude, computeCtype, chartOf, hI, hC, hz, h1]
    by_cases h2 : (env.af_max_all x).1 = .AF_SUCCESS
    swap
    · simp [hg, hw, hI, hC, hz, h1, h2, TRY_CATCHALL, Prog.bind_eq, Prog.andThen_ccall, Prog.andThen_call_ok, Prog.andThen_call_error,
        Prog.andThen_ret, Prog.andThen_pure, Prog.andThen_AF_CHECK, Prog.andThen_FG_CHECK,
        Prog.andThen_ite, Prog.andThen_assoc, Res.prepend_mk] at hR
      subst hR
      simp [ComputeAllOk, computePrelude, computeCtype, chartOf, hI, hC, hz, h1, h2]
    by_cases h3 : (env.af_min_all y).1 = .AF_SUCCESS
    swap
    · simp [hg, hw, hI, hC, hz, h1, h2, h3, TRY_CATCHALL, Prog.bind_eq, Prog.andThen_ccall, Prog.andThen_call_ok, Prog.andThen_call_error,
        Prog.andThen_ret, Prog.andThen_pure, Prog.andThen_AF_CHECK, Prog.andThen_FG_CHECK,
        Prog.andThen_ite, Prog.andThen_assoc, Res.prepend_mk] at hR
      subst hR
      simp [ComputeAllOk, computePrelude, computeCtype, chartOf, hI, hC, hz, h1, h2, h3]
    by_cases h4 : (env.af_max_all y).1 = .AF_SUCCESS
    swap
    · simp [hg, hw, hI, hC, hz, h1, h2, h3, h4, TRY_CATCHALL, Prog.bind_eq, Prog.andThen_ccall, Prog.andThen_call_ok, Prog.andThen_call_error,
        Prog.andThen_ret, Prog.andThen_pure, Prog.andThen_AF_CHECK, Prog.andThen_FG_CHECK,
        Prog.andThen_ite, Prog.andThen_assoc, Res.prepend_mk] at hR
      subst hR
      simp [ComputeAllOk, computePrelude, computeCtype, chartOf, hI, hC, hz, h1, h2, h3, h4]
    rcases hO : env.setChartAxesOverride ch0 with ex | u
    · simp [hg, hw, hI, hC, hz, h1, h2, h3, h4, hO, TRY_CATCHALL, Prog.bind_eq, Prog.andThen_ccall, Prog.andThen_call_ok, Prog.andThen_call_error,
        Prog.andThen_ret, Prog.andThen_pure, Prog.andThen_AF_CHECK, Prog.andThen_FG_CHECK,
        Prog.andThen_ite, Prog.andThen_assoc, Res.prepend_mk] at hR
      subst hR
      simp [ComputeAllOk, computePrelude, computeCtype, chartOf, hI, hC, hz, h1, h2, h3, h4, hO]
    cases exact <;> simp [hg, hw, hI, hC, hz, h1, h2, h3, h4, hO, TRY_CATCHALL, Prog.bind_eq, Prog.andThen_ccall, Prog.andThen_call_ok, Prog.andThen_call_error,
        Prog.andThen_ret, Prog.andThen_pure, Prog.andThen_AF_CHECK, Prog.andThen_FG_CHECK,
        Prog.andThen_ite, Prog.andThen_assoc, Res.prepend_mk] at hR <;>
      split_ifs at hR with hL <;> simp [Res.prepend_mk] at hR <;> subst hR <;>
      simp [ComputeAllOk, computePrelude, computeCtype, chartOf, hI, hC, hz, h1, h2, h3, h4, hO, hL, computeLimitsCall, computeLimitsStatus, forwarded]
  · rcases hC : env.getChart window (selectedCell props).1 (selectedCell props).2
        .FG_CHART_3D with ex | ch0
    · simp [hg, hw, hI, hC, hz, TRY_CATCHALL, Prog.bind_eq, Prog.andThen_ccall, Prog.andThen_call_ok, Prog.andThen_call_error,
        Prog.andThen_ret, Prog.andThen_pure, Prog.andThen_AF_CHECK, Prog.andThen_FG_CHECK,
        Prog.andThen_ite, Prog.andThen_assoc, Res.prepend_mk] at hR
      subst hR
      simp [ComputeAllOk, computePrelude, computeCtype, chartOf, hI, hC, hz]
    by_cases h1 : (env.af_min_all x).1 = .AF_SUCCESS
    swap
    · simp [hg, hw, hI, hC, hz, h1, TRY_CATCHALL, Prog.bind_eq, Prog.andThen_ccall, Prog.andThen_call_ok, Prog.andThen_call_error,
        Prog.andThen_ret, Prog.andThen_pure, Prog.andThen_AF_CHECK, Prog.andThen_FG_CHECK,
        Prog.andThen_ite, Prog.andThen_assoc, Res.prepend_mk] at hR
      subst hR
      simp [ComputeAllOk, computePrelude, computeCtype, chartOf, hI, hC, hz, h1]
    by_cases h2 : (env.af_max_all x).1 = .AF_SUCCESS
    swap
    · simp [hg, hw, hI, hC, hz, h1, h2, TRY_CATCHALL, Prog.bind_eq, Prog.andThen_ccall, Prog.andThen_call_ok, Prog.andThen_call_error,
        Prog.andThen_ret, Prog.andThen_pure, Prog.andThen_AF_CHECK, Prog.andThen_FG_CHECK,
        Prog.andThen_ite, Prog.andThen_assoc, Res.prepend_mk] at hR
      subst hR
      simp [ComputeAllOk, computePrelude, computeCtype, chartOf, hI, hC, hz, h1, h2]
    by_cases h3 : (env.af_min_all y).1 = .AF_SUCCESS
    swap
    · simp [hg, hw, hI, hC, hz, h1, h2, h3, TRY_CATCHALL, Prog.bind_eq, Prog.andThen_ccall, Prog.andThen_call_ok, Prog.andThen_call_error,
        Prog.andThen_ret, Prog.andThen_pure, Prog.andThen_AF_CHECK, Prog.andThen_FG_CHECK,
        Prog.andThen_ite, Prog.andThen_assoc, Res.prepend_mk] at hR
      subst hR
      simp [ComputeAllOk, computePrelude, computeCtype, chartOf, hI, hC, hz, h1, h2, h3]
    by_cases h4 : (env.af_max_all y).1 = .AF_SUCCESS
    swap
    · simp [hg, hw, hI, hC, hz, h1, h2, h3, h4, TRY_CATCHALL, Prog.bind_eq, Prog.andThen_ccall, Prog.andThen_call_ok, Prog.andThen_call_error,
        Prog.andThen_ret, Prog.andThen_pure, Prog.andThen_AF_CHECK, Prog.andThen_FG_CHECK,
        Prog.andThen_ite, Prog.andThen_assoc, Res.prepend_mk] at hR
      subst hR
      simp [ComputeAllOk, computePrelude, computeCtype, chartOf, hI, hC, hz, h1, h2, h3, h4]
    by_cases h5 : (env.af_min_all z).1 = .AF_SUCCESS
    swap
    · simp [hg, hw, hI, hC, hz, h1, h2, h3, h4, h5, TRY_CATCHALL, Prog.bind_eq, Prog.andThen_ccall, Prog.andThen_call_ok, Prog.andThen_call_error,
        Prog.andThen_ret, Prog.andThen_pure, Prog.andThen_AF_CHECK, Prog.andThen_FG_CHECK,
        Prog.andThen_ite, Prog.andThen_assoc, Res.prepend_mk] at hR
      subst hR
      simp [ComputeAllOk, computePrelude, computeCtype, chartOf, hI, hC, hz, h1, h2, h3, h4, h5]
    by_cases h6 : (env.af_max_all z).1 = .AF_SUCCESS
    swap
    · simp [hg, hw, hI, hC, hz, h1, h2, h3, h4, h5, h6, TRY_CATCHALL, Prog.bind_eq, Prog.andThen_ccall, Prog.andThen_call_ok, Prog.andThen_call_error,
        Prog.andThen_ret, Prog.andThen_pure, Prog.andThen_AF_CHECK, Prog.andThen_FG_CHECK,
        Prog.andThen_ite, Prog.andThen_assoc, Res.prepend_mk] at hR
      subst hR
      simp [ComputeAllOk, computePrelude, computeCtype, chartOf, hI, hC, hz, h1, h2, h3, h4, h5, h6]
    rcases hO : env.setChartAxesOverride ch0 with ex | u
    · simp [hg, hw, hI, hC, hz, h1, h2, h3, h4, h5, h6, hO, TRY_CATCHALL, Prog.bind_eq, Prog.andThen_ccall, Prog.andThen_call_ok, Prog.andThen_call_error,
        Prog.andThen_ret, Prog.andThen_pure, Prog.andThen_AF_CHECK, Prog.andThen_FG_CHECK,
        Prog.andThen_ite, Prog.andThen_assoc, Res.prepend_mk] at hR
      subst hR
      simp [ComputeAllOk, computePrelude, computeCtype, chartOf, hI, hC, hz, h1, h2, h3, h4, h5, h6, hO]
    cases exact <;> simp [hg, hw, hI, hC, hz, h1, h2, h3, h4, h5, h6, hO, TRY_CATCHALL, Prog.bind_eq, Prog.andThen_ccall, Prog.andThen_call_ok, Prog.andThen_call_error,
        Prog.andThen_ret, Prog.andThen_pure, Prog.andThen_AF_CHECK, Prog.andThen_FG_CHECK,
        Prog.andThen_ite, Prog.andThen_assoc, Res.prepend_mk] at hR <;>
      split_ifs at hR with hL <;> simp [Res.prepend_mk] at hR <;> subst hR <;>
      simp [ComputeAllOk, computePrelude, computeCtype, chartOf, hI, hC, hz, h1, h2, h3, h4, h5, h6, hO, hL, computeLimitsCall, computeLimitsStatus, forwarded]

/-- The chart lookup and the axes override of `af_set_axes_limits_2d`. -/
theorem chart_lookup_2d (env : Env) (window : Handle)
    (xmin xmax ymin ymax : Scalar) (exact : Bool) (props : af_cell)
    (hg : env.WITH_GRAPHICS = true) (hw : window ≠ 0) :
    (∀ w r c t, Event.getChart w r c t ∈ (af_set_axes_limits_2d env window xmin xmax ymin ymax exact props ()).trace →
      w = window ∧ (r, c) = selectedCell props) ∧
    (env.getInstance = .ok () →
      Event.getChart window (selectedCell props).1 (selectedCell props).2 .FG_CHART_2D ∈
        (af_set_axes_limits_2d env window xmin xmax ymin ymax exact props ()).trace) ∧
    (∀ ch, Event.setChartAxesOverride ch ∈ (af_set_axes_limits_2d env window xmin xmax ymin ymax exact props ()).trace →
      env.getChart window (selectedCell props).1 (selectedCell props).2 .FG_CHART_2D = .ok ch) := by
  generalize hR : af_set_axes_limits_2d env window xmin xmax ymin ymax exact props () = R
  unfold af_set_axes_limits_2d at hR
  simp only [getChart_select] at hR
  rcases hI : env.getInstance with ex | u
  · simp [hg, hw, hI, TRY_CATCHALL, Prog.bind_eq, Prog.andThen_ccall, Prog.andThen_call_ok,
        Prog.andThen_call_error, Prog.andThen_ret, Prog.andThen_pure, Prog.andThen_FG_CHECK,
        Prog.andThen_ite, Prog.andThen_assoc, Res.prepend_mk] at hR
    subst hR
    simp
  rcases hC : env.getChart window (selectedCell props).1 (selectedCell props).2
      .FG_CHART_2D with ex | ch0
  · simp [hg, hw, hI, hC, TRY_CATCHALL, Prog.bind_eq, Prog.andThen_ccall, Prog.andThen_call_ok,
        Prog.andThen_call_error, Prog.andThen_ret, Prog.andThen_pure, Prog.andThen_FG_CHECK,
        Prog.andThen_ite, Prog.andThen_assoc, Res.prepend_mk] at hR
    subst hR
    simp
    rintro w r c t rfl rfl rfl -
    exact ⟨rfl, rfl⟩
  rcases hO : env.setChartAxesOverride ch0 with ex | u
  · simp [hg, hw, hI, hC, hO, TRY_CATCHALL, Prog.bind_eq, Prog.andThen_ccall, Prog.andThen_call_ok,
        Prog.andThen_call_error, Prog.andThen_ret, Prog.andThen_pure, Prog.andThen_FG_CHECK,
        Prog.andThen_ite, Prog.andThen_assoc, Res.prepend_mk] at hR
    subst hR
    simp
    rintro w r c t rfl rfl rfl -
    exact ⟨rfl, rfl⟩
  · simp [hg, hw, hI, hC, hO, TRY_CATCHALL, Prog.bind_eq, Prog.andThen_ccall, Prog.andThen_call_ok,
        Prog.andThen_call_error, Prog.andThen_ret, Prog.andThen_pure, Prog.andThen_FG_CHECK,
        Prog.andThen_ite, Prog.andThen_assoc, Res.prepend_mk] at hR
    split_ifs at hR <;> simp [Res.prepend_mk] at hR <;> subst hR <;> simp <;>
      (rintro w r c t rfl rfl rfl -; exact ⟨rfl, rfl⟩)

/-- The chart lookup and the axes override of `af_set_axes_limits_3d`. -/
theorem chart_lookup_3d (env : Env) (window : Handle)
    (xmin xmax ymin ymax zmin zmax : Scalar) (exact : Bool) (props : af_cell)
    (hg : env.WITH_GRAPHICS = true) (hw : window ≠ 0) :
    (∀ w r c t, Event.getChart w r c t ∈ (af_set_axes_limits_3d env window xmin xmax ymin ymax zmin zmax exact props ()).trace →
      w = window ∧ (r, c) = selectedCell props) ∧
    (env.getInstance = .ok () →
      Event.getChart window (selectedCell props).1 (selectedCell props).2 .FG_CHART_3D ∈
        (af_set_axes_limits_3d env window xmin xmax ymin ymax zmin zmax exact props ()).trace) ∧
    (∀ ch, Event.setChartAxesOverride ch ∈ (af_set_axes_limits_3d env window xmin xmax ymin ymax zmin zmax exact props ()).trace →
      env.getChart window (selectedCell props).1 (selectedCell props).2 .FG_CHART_3D = .ok ch) := by
  generalize hR : af_set_axes_limits_3d env window xmin xmax ymin ymax zmin zmax exact props () = R
  unfold af_set_axes_limits_3d at hR
  simp only [getChart_select] at hR
  rcases hI : env.getInstance with ex | u
  · simp [hg, hw, hI, TRY_CATCHALL, Prog.bind_eq, Prog.andThen_ccall, Prog.andThen_call_ok,
        Prog.andThen_call_error, Prog.andThen_ret, Prog.andThen_pure, Prog.andThen_FG_CHECK,
        Prog.andThen_ite, Prog.andThen_assoc, Res.prepend_mk] at hR
    subst hR
    simp
  rcases hC : env.getChart window (selectedCell props).1 (selectedCell props).2
      .FG_CHART_3D with ex | ch0
  · simp [hg, hw, hI, hC, TRY_CATCHALL, Prog.bind_eq, Prog.andThen_ccall, Prog.andThen_call_ok,
        Prog.andThen_call_error, Prog.andThen_ret, Prog.andThen_pure, Prog.andThen_FG_CHECK,
        Prog.andThen_ite, Prog.andThen_assoc, Res.prepend_mk] at hR
    subst hR
    simp
    rintro w r c t rfl rfl rfl -
    exact ⟨rfl, rfl⟩
  rcases hO : env.setChartAxesOverride ch0 with ex | u
  · simp [hg, hw, hI, hC, hO, TRY_CATCHALL, Prog.bind_eq, Prog.andThen_ccall, Prog.andThen_call_ok,
        Prog.andThen_call_error, Prog.andThen_ret, Prog.andThen_pure, Prog.andThen_FG_CHECK,
        Prog.andThen_ite, Prog.andThen_assoc, Res.prepend_mk] at hR
    subst hR
    simp
    rintro w r c t rfl rfl rfl -
    exact ⟨rfl, rfl⟩
  · simp [hg, hw, hI, hC, hO, TRY_CATCHALL, Prog.bind_eq, Prog.andThen_ccall, Prog.andThen_call_ok,
        Prog.andThen_call_error, Prog.andThen_ret, Prog.andThen_pure, Prog.andThen_FG_CHECK,
        Prog.andThen_ite, Prog.andThen_assoc, Res.prepend_mk] at hR
    split_ifs at hR <;> simp [Res.prepend_mk] at hR <;> subst hR <;> simp <;>
      (rintro w r c t rfl rfl rfl -; exact ⟨rfl, rfl⟩)

/-- Symbolic execution of `af_set_axes_titles` on a non-null window. -/
theorem titles_outcomes (env : Env) (window : Handle) (xtitle ytitle ztitle : CStr)
    (props : af_cell) (hg : env.WITH_GRAPHICS = true) (hw : window ≠ 0) :
    (∀ e, env.getInstance = .error e →
      (af_set_axes_titles env window xtitle ytitle ztitle props ()).trace = [.getInstance]) ∧
    (env.getInstance = .ok () →
      (∀ e, env.getChart window (selectedCell props).1 (selectedCell props).2
          (if ztitle.isSome then .FG_CHART_3D else .FG_CHART_2D) = .error e →
        (af_set_axes_titles env window xtitle ytitle ztitle props ()).trace =
          [.getInstance,
           .getChart window (selectedCell props).1 (selectedCell props).2
             (if ztitle.isSome then .FG_CHART_3D else .FG_CHART_2D)]) ∧
      (∀ ch, env.getChart window (selectedCell props).1 (selectedCell props).2
          (if ztitle.isSome then .FG_CHART_3D else .FG_CHART_2D) = .ok ch →
        (af_set_axes_titles env window xtitle ytitle ztitle props ()).trace =
          [.getInstance,
           .getChart window (selectedCell props).1 (selectedCell props).2
             (if ztitle.isSome then .FG_CHART_3D else .FG_CHART_2D),
           .fg_set_chart_axes_titles ch xtitle ytitle ztitle])) := by
  unfold af_set_axes_titles
  simp only [getChart_select]
  refine ⟨?_, ?_⟩
  · intro e hI
    simp [hg, hw, hI, TRY_CATCHALL, Prog.bind_eq, Prog.andThen_ccall, Prog.andThen_call_ok,
        Prog.andThen_call_error, Prog.andThen_ret, Prog.andThen_pure, Prog.andThen_FG_CHECK,
        Prog.andThen_ite, Prog.andThen_assoc, Res.prepend_mk]
  · intro hI
    refine ⟨?_, ?_⟩
    · intro e hC
      simp [hg, hw, hI, hC, TRY_CATCHALL, Prog.bind_eq, Prog.andThen_ccall, Prog.andThen_call_ok,
        Prog.andThen_call_error, Prog.andThen_ret, Prog.andThen_pure, Prog.andThen_FG_CHECK,
        Prog.andThen_ite, Prog.andThen_assoc, Res.prepend_mk]
    · intro ch hC
      simp [hg, hw, hI, hC, TRY_CATCHALL, Prog.bind_eq, Prog.andThen_ccall, Prog.andThen_call_ok,
        Prog.andThen_call_error, Prog.andThen_ret, Prog.andThen_pure, Prog.andThen_FG_CHECK,
        Prog.andThen_ite, Prog.andThen_assoc, Res.prepend_mk]
      split_ifs <;> simp [Res.prepend_mk]

/-- Symbolic execution of `copy_plot`: the result on each of its paths. -/
theorem copy_plot_paths (env : Env) (P : Array) (plot : Handle) :
    (∀ e, env.forgePlugin = .error e →
      copy_plot env P plot () = ⟨[.forgePlugin], (), .error e⟩) ∧
    (env.forgePlugin = .ok () →
      (∀ e, env.getActiveStream = .error e →
        copy_plot env P plot () = ⟨[.forgePlugin, .getActiveStream], (), .error e⟩) ∧
      (∀ st, env.getActiveStream = .ok st →
        (∀ e, env.checkGraphicsInteropCapability = .error e →
          copy_plot env P plot () =
            ⟨[.forgePlugin, .getActiveStream, .checkGraphicsInteropCapability], (),
              .error e⟩) ∧
        (env.checkGraphicsInteropCapability = .ok true →
          (∀ e, env.getPlotResources plot = .error e →
            copy_plot env P plot () =
              ⟨[.forgePlugin, .getActiveStream, .checkGraphicsInteropCapability,
                .getPlotResources plot], (), .error e⟩) ∧
          (∀ res, env.getPlotResources plot = .ok res →
            (∀ e, env.CheckGL "After cuda resource copy" = .error e →
              copy_plot env P plot () = ⟨interopCalls env P plot st res, (), .error e⟩) ∧
            (env.CheckGL "After cuda resource copy" = .ok () →
              copy_plot env P plot () =
                ⟨interopCalls env P plot st res ++ [.POST_LAUNCH_CHECK], (),
                  env.POST_LAUNCH_CHECK⟩))) ∧
        (env.checkGraphicsInteropCapability = .ok false →
          ((env.fg_get_plot_vertex_buffer plot).1 ≠ .FG_ERR_NONE →
            copy_plot env P plot () =
              ⟨[.forgePlugin, .getActiveStream, .checkGraphicsInteropCapability,
                .fg_get_plot_vertex_buffer plot], (),
                .error (.fg_check (env.fg_get_plot_vertex_buffer plot).1)⟩) ∧
          ((env.fg_get_plot_vertex_buffer plot).1 = .FG_ERR_NONE →
            ((env.fg_get_plot_vertex_buffer_size plot).1 ≠ .FG_ERR_NONE →
              copy_plot env P plot () =
                ⟨[.forgePlugin, .getActiveStream, .checkGraphicsInteropCapability,
                  .fg_get_plot_vertex_buffer plot, .fg_get_plot_vertex_buffer_size plot], (),
                  .error (.fg_check (env.fg_get_plot_vertex_buffer_size plot).1)⟩) ∧
            ((env.fg_get_plot_vertex_buffer_size plot).1 = .FG_ERR_NONE →
              (∀ e, env.CheckGL "Begin CUDA fallback-resource copy" = .error e →
                copy_plot env P plot () =
                  ⟨[.forgePlugin, .getActiveStream, .checkGraphicsInteropCapability,
                    .fg_get_plot_vertex_buffer plot, .fg_get_plot_vertex_buffer_size plot,
                    .CheckGL "Begin CUDA fallback-resource copy"], (), .error e⟩) ∧
              (env.CheckGL "Begin CUDA fallback-resource copy" = .ok () →
                (env.glMapBuffer .GL_ARRAY_BUFFER .GL_WRITE_ONLY = 0 →
                  copy_plot env P plot () =
                    ⟨fallbackPrelude env plot ++
                      [.glBindBuffer .GL_ARRAY_BUFFER 0,
                       .CheckGL "End CUDA fallback-resource copy"], (),
                      env.CheckGL "End CUDA fallback-resource copy"⟩) ∧
                (env.glMapBuffer .GL_ARRAY_BUFFER .GL_WRITE_ONLY ≠ 0 →
                  (fallbackCopyStatus env P plot st ≠ .cudaSuccess →
                    copy_plot env P plot () =
                      ⟨fallbackPrelude env plot ++ [fallbackCopy env P plot st], (),
                        .error (.cuda_check (fallbackCopyStatus env P plot st))⟩) ∧
                  (fallbackCopyStatus env P plot st = .cudaSuccess →
                    (env.cudaStreamSynchronize st ≠ .cudaSuccess →
                      copy_plot env P plot () =
                        ⟨fallbackPrelude env plot ++
                          [fallbackCopy env P plot st, .cudaStreamSynchronize st], (),
                          .error (.cuda_check (env.cudaStreamSynchronize st))⟩) ∧
                    (env.cudaStreamSynchronize st = .cudaSuccess →
                      copy_plot env P plot () =
                        ⟨fallbackPrelude env plot ++
                          [fallbackCopy env P plot st, .cudaStreamSynchronize st,
                           .glUnmapBuffer .GL_ARRAY_BUFFER,
                           .glBindBuffer .GL_ARRAY_BUFFER 0,
                           .CheckGL "End CUDA fallback-resource copy"], (),
                          env.CheckGL "End CUDA fallback-resource copy"⟩))))))))) := by
  unfold copy_plot
  refine ⟨?_, fun hF => ⟨?_, fun st hS => ⟨?_, fun hT => ⟨?_, fun res hG => ⟨?_, ?_⟩⟩,
    fun hT => ⟨?_, fun hb => ⟨?_, fun hs => ⟨?_, fun hB => ⟨?_, fun hp => ⟨?_, fun hm =>
      ⟨?_, ?_⟩⟩⟩⟩⟩⟩⟩⟩⟩
  all_goals intros
  all_goals try simp only [fallbackCopyStatus] at *
  all_goals
    simp [*, interopCalls, fallbackPrelude, fallbackCopy, fallbackCopyStatus, Prog.bind_eq, Prog.andThen_ccall, Prog.andThen_call_ok,
      Prog.andThen_call_error, Prog.andThen_ret, Prog.andThen_pure, Prog.andThen_FG_CHECK,
      Prog.andThen_CUDA_CHECK, Prog.andThen_ite, Prog.andThen_assoc, Res.prepend_mk]

/-! ## Properties -/

/-- C1: in a graphics-enabled build each of the twelve operations that take an
existing window handle, called with the null handle, returns `AF_SUCCESS`,
makes no call to Forge or the `ForgeManager` and leaves its output parameter
(`*out` of `af_is_window_closed`) unchanged. -/
theorem null_window_is_noop (env : Env) (hg : env.WITH_GRAPHICS = true)
    (x y w h : Nat) (title xtitle ytitle ztitle : CStr) (rows cols : Int)
    (ax ay az : Handle) (exact visible : Bool) (props : af_cell)
    (xmin xmax ymin ymax zmin zmax : Scalar) (out : Bool) :
    NullWindowNoOp () (af_set_position env 0 x y ()) ∧
    NullWindowNoOp () (af_set_title env 0 title ()) ∧
    NullWindowNoOp () (af_set_size env 0 w h ()) ∧
    NullWindowNoOp () (af_grid env 0 rows cols ()) ∧
    NullWindowNoOp () (af_set_axes_limits_compute env 0 ax ay az exact props ()) ∧
    NullWindowNoOp () (af_set_axes_limits_2d env 0 xmin xmax ymin ymax exact props ()) ∧
    NullWindowNoOp () (af_set_axes_limits_3d env 0 xmin xmax ymin ymax zmin zmax exact props ()) ∧
    NullWindowNoOp () (af_set_axes_titles env 0 xtitle ytitle ztitle props ()) ∧
    NullWindowNoOp () (af_show env 0 ()) ∧
    NullWindowNoOp out (af_is_window_closed env 0 out) ∧
    NullWindowNoOp () (af_set_visibility env 0 visible ()) ∧
    NullWindowNoOp () (af_destroy_window env 0 ()) := by
  simp [NullWindowNoOp, af_set_position, af_set_title, af_set_size, af_grid,
    af_set_axes_limits_compute, af_set_axes_limits_2d, af_set_axes_limits_3d,
    af_set_axes_titles, af_show, af_is_window_closed, af_set_visibility,
    af_destroy_window, hg, Prog.andThen, Event.isForge, Event.isForgeManager]

theorem null_window_is_noop_witness :
    Env.nominal.WITH_GRAPHICS = true ∧
    (NullWindowNoOp () (af_set_position Env.nominal 0 10 20 ()) ∧
     NullWindowNoOp () (af_set_title Env.nominal 0 (some "plot") ()) ∧
     NullWindowNoOp () (af_set_size Env.nominal 0 640 480 ()) ∧
     NullWindowNoOp () (af_grid Env.nominal 0 2 2 ()) ∧
     NullWindowNoOp () (af_set_axes_limits_compute Env.nominal 0 5 6 7 false ⟨0, 1⟩ ()) ∧
     NullWindowNoOp () (af_set_axes_limits_2d Env.nominal 0 0 1 0 1 true ⟨0, 1⟩ ()) ∧
     NullWindowNoOp () (af_set_axes_limits_3d Env.nominal 0 0 1 0 1 0 1 true ⟨0, 1⟩ ()) ∧
     NullWindowNoOp () (af_set_axes_titles Env.nominal 0 (some "x") (some "y") none ⟨0, 1⟩ ()) ∧
     NullWindowNoOp () (af_show Env.nominal 0 ()) ∧
     NullWindowNoOp false (af_is_window_closed Env.nominal 0 false) ∧
     NullWindowNoOp () (af_set_visibility Env.nominal 0 true ()) ∧
     NullWindowNoOp () (af_destroy_window Env.nominal 0 ())) :=
  ⟨rfl, null_window_is_noop Env.nominal rfl 10 20 640 480 (some "plot") (some "x") (some "y")
    none 2 2 5 6 7 false true ⟨0, 1⟩ 0 1 0 1 0 1 false⟩

/-- C7: compiled without `WITH_GRAPHICS`, each of the thirteen functions of
window.cpp returns `AF_ERR_NO_GFX` on every input, never `AF_SUCCESS`, and
leaves its output parameter (`*out` of `af_create_window` and of
`af_is_window_closed`) unchanged. -/
theorem no_graphics_build_reports_no_gfx (env : Env) (hg : env.WITH_GRAPHICS = false)
    (wind : Handle) (width height rows cols : Int) (x y w h : Nat)
    (title xtitle ytitle ztitle : CStr) (ax ay az : Handle) (exact visible : Bool)
    (props : af_cell) (xmin xmax ymin ymax zmin zmax : Scalar)
    (outw : Handle) (outb : Bool) :
    NoGfxResult outw (af_create_window env width height title outw) ∧
    NoGfxResult () (af_set_position env wind x y ()) ∧
    NoGfxResult () (af_set_title env wind title ()) ∧
    NoGfxResult () (af_set_size env wind w h ()) ∧
    NoGfxResult () (af_grid env wind rows cols ()) ∧
    NoGfxResult () (af_set_axes_limits_compute env wind ax ay az exact props ()) ∧
    NoGfxResult () (af_set_axes_limits_2d env wind xmin xmax ymin ymax exact props ()) ∧
    NoGfxResult () (af_set_axes_limits_3d env wind xmin xmax ymin ymax zmin zmax exact props ()) ∧
    NoGfxResult () (af_set_axes_titles env wind xtitle ytitle ztitle props ()) ∧
    NoGfxResult () (af_show env wind ()) ∧
    NoGfxResult outb (af_is_window_closed env wind outb) ∧
    NoGfxResult () (af_set_visibility env wind visible ()) ∧
    NoGfxResult () (af_destroy_window env wind ()) := by
  simp [NoGfxResult, af_create_window, af_set_position, af_set_title, af_set_size, af_grid,
    af_set_axes_limits_compute, af_set_axes_limits_2d, af_set_axes_limits_3d,
    af_set_axes_titles, af_show, af_is_window_closed, af_set_visibility,
    af_destroy_window, hg, AF_RETURN_ERROR]

theorem no_graphics_build_reports_no_gfx_witness :
    Env.headless.WITH_GRAPHICS = false ∧
    (NoGfxResult 0 (af_create_window Env.headless 640 480 (some "plot") 0) ∧
     NoGfxResult () (af_set_position Env.headless 42 10 20 ()) ∧
     NoGfxResult () (af_set_title Env.headless 42 (some "plot") ()) ∧
     NoGfxResult () (af_set_size Env.headless 42 640 480 ()) ∧
     NoGfxResult () (af_grid Env.headless 42 2 2 ()) ∧
     NoGfxResult () (af_set_axes_limits_compute Env.headless 42 5 6 7 false ⟨0, 1⟩ ()) ∧
     NoGfxResult () (af_set_axes_limits_2d Env.headless 42 0 1 0 1 true ⟨0, 1⟩ ()) ∧
     NoGfxResult () (af_set_axes_limits_3d Env.headless 42 0 1 0 1 0 1 true ⟨0, 1⟩ ()) ∧
     NoGfxResult () (af_set_axes_titles Env.headless 42 (some "x") (some "y") none ⟨0, 1⟩ ()) ∧
     NoGfxResult () (af_show Env.headless 42 ()) ∧
     NoGfxResult false (af_is_window_closed Env.headless 42 false) ∧
     NoGfxResult () (af_set_visibility Env.headless 42 true ()) ∧
     NoGfxResult () (af_destroy_window Env.headless 42 ())) :=
  ⟨rfl, no_graphics_build_reports_no_gfx Env.headless rfl 42 640 480 2 2 10 20 640 480
    (some "plot") (some "x") (some "y") none 5 6 7 false true ⟨0, 1⟩ 0 1 0 1 0 1 0 false⟩

/-- C3, as stated, fails: Forge creates window 42 and reports success, then
`setWindowChartGrid` raises; the function returns the handler's error code and
`*out` still holds its old value 0, not the new handle. -/
theorem create_window_success_claim_fails :
    ¬ ((Env.gridThrows.fg_create_window 640 480 (some "plot") 1 false).1 = .FG_ERR_NONE →
        (af_create_window Env.gridThrows 640 480 (some "plot") 0).out
            = (Env.gridThrows.fg_create_window 640 480 (some "plot") 1 false).2 ∧
        (af_create_window Env.gridThrows 640 480 (some "plot") 0).val = .ok .AF_SUCCESS) := by
  simp [af_create_window, Env.gridThrows, Env.nominal, TRY_CATCHALL, Prog.tryCatch,
    Prog.andThen, FG_CHECK]

/-- C3 (amended): in a graphics-enabled build, once `ForgeManager::getInstance()`
has returned, `af_create_window` behaves as follows.
(1) If the main window is null, or fetching it raises, it returns `AF_SUCCESS`,
never calls `fg_create_window` and leaves `*out` unchanged.
(2) If `fg_create_window` succeeds and `setWindowChartGrid(temp, 1, 1)` returns,
the calls are exactly getInstance, getMainWindow, fg_create_window,
setWindowChartGrid(temp, 1, 1), `*out` holds the handle produced by
`fg_create_window` and the result is `AF_SUCCESS`; if `setWindowChartGrid`
raises instead, the handler's code is returned and `*out` is unchanged.
(3) If `fg_create_window` fails, the handler's code is returned and `*out` is
unchanged.  Whenever `processException` never yields `AF_SUCCESS`, the codes
returned in the raising cases are non-success codes. -/
theorem create_window_contract (env : Env) (width height : Int) (title : CStr) (out : Handle)
    (hg : env.WITH_GRAPHICS = true) (hI : env.getInstance = .ok ())
    (hpe : ∀ e, env.processException e ≠ .AF_SUCCESS) :
    ((env.getMainWindow = .ok 0 ∨ ∃ e, env.getMainWindow = .error e) →
      (af_create_window env width height title out).val = .ok .AF_SUCCESS ∧
      (∀ w h t m i, Event.fg_create_window w h t m i ∉
        (af_create_window env width height title out).trace) ∧
      (af_create_window env width height title out).out = out) ∧
    (∀ m, env.getMainWindow = .ok m → m ≠ 0 →
      (env.fg_create_window width height title m false).1 = .FG_ERR_NONE →
      (env.setWindowChartGrid (env.fg_create_window width height title m false).2 1 1 = .ok () →
        (af_create_window env width height title out).trace =
          [.getInstance, .getMainWindow, .fg_create_window width height title m false,
           .setWindowChartGrid (env.fg_create_window width height title m false).2 1 1] ∧
        (af_create_window env width height title out).out =
          (env.fg_create_window width height title m false).2 ∧
        (af_create_window env width height title out).val = .ok .AF_SUCCESS) ∧
      (∀ e, env.setWindowChartGrid (env.fg_create_window width height title m false).2 1 1
          = .error e →
        (af_create_window env width height title out).val = .ok (env.processException e) ∧
        env.processException e ≠ .AF_SUCCESS ∧
        (af_create_window env width height title out).out = out)) ∧
    (∀ m, env.getMainWindow = .ok m → m ≠ 0 →
      (env.fg_create_window width height title m false).1 ≠ .FG_ERR_NONE →
      (af_create_window env width height title out).val =
        .ok (env.processException
          (.fg_check (env.fg_create_window width height title m false).1)) ∧
      env.processException (.fg_check (env.fg_create_window width height title m false).1)
        ≠ .AF_SUCCESS ∧
      (af_create_window env width height title out).out = out) := by
  refine ⟨?_, ?_, ?_⟩
  · rintro (h | ⟨e, h⟩) <;>
      simp [af_create_window, hg, hI, h, TRY_CATCHALL, Prog.tryCatch, Prog.andThen]
  · intro m hm hm0 hc
    constructor
    · intro hs
      simp [af_create_window, hg, hI, hm, hm0, hc, hs, TRY_CATCHALL, Prog.tryCatch,
        Prog.andThen, FG_CHECK]
    · intro e he
      simp [af_create_window, hg, hI, hm, hm0, hc, he, hpe, TRY_CATCHALL, Prog.tryCatch,
        Prog.andThen, FG_CHECK]
  · intro m hm hm0 hc
    simp [af_create_window, hg, hI, hm, hm0, hc, hpe, TRY_CATCHALL, Prog.tryCatch,
      Prog.andThen, FG_CHECK]

theorem create_window_contract_witness :
    Env.nominal.WITH_GRAPHICS = true ∧ Env.nominal.getInstance = .ok () ∧
    (∀ e, Env.nominal.processException e ≠ .AF_SUCCESS) ∧
    Env.nominal.getMainWindow = .ok 1 ∧
    (Env.nominal.fg_create_window 640 480 (some "plot") 1 false).1 = .FG_ERR_NONE ∧
    Env.nominal.setWindowChartGrid 42 1 1 = .ok () ∧
    ((af_create_window Env.nominal 640 480 (some "plot") 0).trace =
        [.getInstance, .getMainWindow, .fg_create_window 640 480 (some "plot") 1 false,
         .setWindowChartGrid 42 1 1] ∧
     (af_create_window Env.nominal 640 480 (some "plot") 0).out = 42 ∧
     (af_create_window Env.nominal 640 480 (some "plot") 0).val = .ok .AF_SUCCESS) :=
  ⟨rfl, rfl, fun _ => by simp [Env.nominal], rfl, rfl, rfl,
    ((create_window_contract Env.nominal 640 480 (some "plot") 0 rfl rfl
      (fun _ => by simp [Env.nominal])).2.1 1 rfl (by decide) rfl).1 rfl⟩

/-- C8: `af_destroy_window` on a non-null window in a graphics-enabled build.
When the grid reset returns, the calls are exactly getInstance,
setWindowChartGrid(wind, 0, 0), fg_release_window(wind), in this order, with
`fg_release_window` called once, and the result is `AF_SUCCESS` when the
release succeeds as well.  When the grid reset raises (in `getInstance` or in
`setWindowChartGrid`), the handler's code is returned, it is a non-success code
provided `processException` never yields `AF_SUCCESS`, and `fg_release_window`
is not called.  In every run a call of `fg_release_window` is on `wind` and
comes after the grid reset. -/
theorem destroy_window_order (env : Env) (wind : Handle)
    (hg : env.WITH_GRAPHICS = true) (hw : wind ≠ 0)
    (hpe : ∀ e, env.processException e ≠ .AF_SUCCESS) :
    (env.getInstance = .ok () → env.setWindowChartGrid wind 0 0 = .ok () →
      (af_destroy_window env wind ()).trace =
        [.getInstance, .setWindowChartGrid wind 0 0, .fg_release_window wind] ∧
      (af_destroy_window env wind ()).trace.count (.fg_release_window wind) = 1 ∧
      (env.fg_release_window wind = .FG_ERR_NONE →
        (af_destroy_window env wind ()).val = .ok .AF_SUCCESS)) ∧
    (∀ e, (env.getInstance = .error e ∨
          (env.getInstance = .ok () ∧ env.setWindowChartGrid wind 0 0 = .error e)) →
      (af_destroy_window env wind ()).val = .ok (env.processException e) ∧
      env.processException e ≠ .AF_SUCCESS ∧
      ∀ w, Event.fg_release_window w ∉ (af_destroy_window env wind ()).trace) ∧
    (∀ w, Event.fg_release_window w ∈ (af_destroy_window env wind ()).trace →
      w = wind ∧ env.getInstance = .ok () ∧ env.setWindowChartGrid wind 0 0 = .ok () ∧
      (af_destroy_window env wind ()).trace =
        [.getInstance, .setWindowChartGrid wind 0 0, .fg_release_window wind]) := by
  refine ⟨?_, ?_, ?_⟩
  · intro hI hS
    rcases hR : env.fg_release_window wind with _ | c <;>
      simp [af_destroy_window, hg, hw, hI, hS, hR, TRY_CATCHALL, Prog.andThen, FG_CHECK]
  · rintro e (hI | ⟨hI, hS⟩)
    · simp [af_destroy_window, hg, hw, hI, hpe, TRY_CATCHALL, Prog.andThen]
    · simp [af_destroy_window, hg, hw, hI, hS, hpe, TRY_CATCHALL, Prog.andThen]
  · intro w
    rcases hI : env.getInstance with e | u
    · simp [af_destroy_window, hg, hw, hI, TRY_CATCHALL, Prog.andThen]
    · rcases hS : env.setWindowChartGrid wind 0 0 with e | u
      · simp [af_destroy_window, hg, hw, hI, hS, TRY_CATCHALL, Prog.andThen]
      · rcases hR : env.fg_release_window wind with _ | c <;>
          simp [af_destroy_window, hg, hw, hI, hS, hR, TRY_CATCHALL, Prog.andThen, FG_CHECK]

theorem destroy_window_order_witness :
    Env.nominal.WITH_GRAPHICS = true ∧ (42 : Handle) ≠ 0 ∧
    (∀ e, Env.nominal.processException e ≠ .AF_SUCCESS) ∧
    Env.nominal.getInstance = .ok () ∧ Env.nominal.setWindowChartGrid 42 0 0 = .ok () ∧
    Env.nominal.fg_release_window 42 = .FG_ERR_NONE ∧
    ((af_destroy_window Env.nominal 42 ()).trace =
        [.getInstance, .setWindowChartGrid 42 0 0, .fg_release_window 42] ∧
     (af_destroy_window Env.nominal 42 ()).trace.count (.fg_release_window 42) = 1 ∧
     (af_destroy_window Env.nominal 42 ()).val = .ok .AF_SUCCESS) :=
  ⟨rfl, by decide, fun _ => by simp [Env.nominal], rfl, rfl, rfl,
    ((destroy_window_order Env.nominal 42 rfl (by decide)
        (fun _ => by simp [Env.nominal])).1 rfl rfl).1,
    ((destroy_window_order Env.nominal 42 rfl (by decide)
        (fun _ => by simp [Env.nominal])).1 rfl rfl).2.1,
    ((destroy_window_order Env.nominal 42 rfl (by decide)
        (fun _ => by simp [Env.nominal])).1 rfl rfl).2.2 rfl⟩

/-- C4: `af_set_axes_limits_2d` and `af_set_axes_limits_3d` on a non-null window
in a graphics-enabled build.  Every call of `fg_set_chart_axes_limits` they make
carries, when `exact` is true, the caller's limits unchanged and, when `exact`
is false, `step_round(min, false)` for each minimum and `step_round(max, true)`
for each maximum; the 2d variant passes 0 and 0 as z limits in both cases; and
the call comes right after `setChartAxesOverride` on the same chart, the calls
being exactly getInstance, getChart, setChartAxesOverride,
fg_set_chart_axes_limits.  When the chart is obtained and the override returns,
the call is made. -/
theorem axes_limits_forwarding (env : Env) (window : Handle)
    (xmin xmax ymin ymax zmin zmax : Scalar) (exact : Bool) (props : af_cell)
    (hg : env.WITH_GRAPHICS = true) (hw : window ≠ 0) :
    (∀ ch a b c d e f, Event.fg_set_chart_axes_limits ch a b c d e f ∈
        (af_set_axes_limits_2d env window xmin xmax ymin ymax exact props ()).trace →
      (exact = true → a = xmin ∧ b = xmax ∧ c = ymin ∧ d = ymax) ∧
      (exact = false → a = env.step_round xmin false ∧ b = env.step_round xmax true ∧
        c = env.step_round ymin false ∧ d = env.step_round ymax true) ∧
      e = 0 ∧ f = 0 ∧
      (af_set_axes_limits_2d env window xmin xmax ymin ymax exact props ()).trace =
        [.getInstance,
         .getChart window (selectedCell props).1 (selectedCell props).2 .FG_CHART_2D,
         .setChartAxesOverride ch, .fg_set_chart_axes_limits ch a b c d e f]) ∧
    (∀ ch a b c d e f, Event.fg_set_chart_axes_limits ch a b c d e f ∈
        (af_set_axes_limits_3d env window xmin xmax ymin ymax zmin zmax exact props ()).trace →
      (exact = true → a = xmin ∧ b = xmax ∧ c = ymin ∧ d = ymax ∧ e = zmin ∧ f = zmax) ∧
      (exact = false → a = env.step_round xmin false ∧ b = env.step_round xmax true ∧
        c = env.step_round ymin false ∧ d = env.step_round ymax true ∧
        e = env.step_round zmin false ∧ f = env.step_round zmax true) ∧
      (af_set_axes_limits_3d env window xmin xmax ymin ymax zmin zmax exact props ()).trace =
        [.getInstance,
         .getChart window (selectedCell props).1 (selectedCell props).2 .FG_CHART_3D,
         .setChartAxesOverride ch, .fg_set_chart_axes_limits ch a b c d e f]) ∧
    (∀ ch, env.getInstance = .ok () →
      env.getChart window (selectedCell props).1 (selectedCell props).2 .FG_CHART_2D = .ok ch →
      env.setChartAxesOverride ch = .ok () →
      ∃ a b c d, Event.fg_set_chart_axes_limits ch a b c d 0 0 ∈
        (af_set_axes_limits_2d env window xmin xmax ymin ymax exact props ()).trace) ∧
    (∀ ch, env.getInstance = .ok () →
      env.getChart window (selectedCell props).1 (selectedCell props).2 .FG_CHART_3D = .ok ch →
      env.setChartAxesOverride ch = .ok () →
      ∃ a b c d e f, Event.fg_set_chart_axes_limits ch a b c d e f ∈
        (af_set_axes_limits_3d env window xmin xmax ymin ymax zmin zmax exact props ()).trace) := by
  refine ⟨?_, ?_, ?_, ?_⟩
  · intro ch a b c d e f
    unfold af_set_axes_limits_2d
    simp only [getChart_select]
    rcases hI : env.getInstance with x | u
    · simp [hg, hw, hI, TRY_CATCHALL, Prog.andThen]
    · rcases hC : env.getChart window (selectedCell props).1 (selectedCell props).2
          .FG_CHART_2D with x | ch0
      · simp [hg, hw, hI, hC, TRY_CATCHALL, Prog.andThen]
      · rcases hO : env.setChartAxesOverride ch0 with x | u
        · simp [hg, hw, hI, hC, hO, TRY_CATCHALL, Prog.andThen]
        · cases exact <;>
            simp [hg, hw, hI, hC, hO, TRY_CATCHALL, Prog.andThen, FG_CHECK] <;>
            split_ifs <;> simp <;> rintro rfl rfl rfl rfl rfl rfl rfl <;> simp
  · intro ch a b c d e f
    unfold af_set_axes_limits_3d
    simp only [getChart_select]
    rcases hI : env.getInstance with x | u
    · simp [hg, hw, hI, TRY_CATCHALL, Prog.andThen]
    · rcases hC : env.getChart window (selectedCell props).1 (selectedCell props).2
          .FG_CHART_3D with x | ch0
      · simp [hg, hw, hI, hC, TRY_CATCHALL, Prog.andThen]
      · rcases hO : env.setChartAxesOverride ch0 with x | u
        · simp [hg, hw, hI, hC, hO, TRY_CATCHALL, Prog.andThen]
        · cases exact <;>
            simp [hg, hw, hI, hC, hO, TRY_CATCHALL, Prog.andThen, FG_CHECK] <;>
            split_ifs <;> simp <;> rintro rfl rfl rfl rfl rfl rfl rfl <;> simp
  · intro ch hI hC hO
    unfold af_set_axes_limits_2d
    simp only [getChart_select]
    cases exact <;>
      simp [hg, hw, hI, hC, hO, TRY_CATCHALL, Prog.andThen, FG_CHECK] <;>
      split_ifs <;> simp
  · intro ch hI hC hO
    unfold af_set_axes_limits_3d
    simp only [getChart_select]
    cases exact <;>
      simp [hg, hw, hI, hC, hO, TRY_CATCHALL, Prog.andThen, FG_CHECK] <;>
      split_ifs <;> simp

theorem axes_limits_forwarding_witness :
    Env.nominal.WITH_GRAPHICS = true ∧ (42 : Handle) ≠ 0 ∧
    Event.fg_set_chart_axes_limits 9 (-10) 10 (-10) 10 0 0 ∈
      (af_set_axes_limits_2d Env.nominal 42 2 3 4 5 false ⟨0, 1⟩ ()).trace ∧
    ((-10 : Scalar) = Env.nominal.step_round 2 false ∧
     (10 : Scalar) = Env.nominal.step_round 3 true ∧
     (-10 : Scalar) = Env.nominal.step_round 4 false ∧
     (10 : Scalar) = Env.nominal.step_round 5 true) ∧
    (af_set_axes_limits_2d Env.nominal 42 2 3 4 5 false ⟨0, 1⟩ ()).trace =
      [.getInstance, .getChart 42 0 1 .FG_CHART_2D, .setChartAxesOverride 9,
       .fg_set_chart_axes_limits 9 (-10) 10 (-10) 10 0 0] :=
  ⟨rfl, by decide,
    by simp [af_set_axes_limits_2d, Env.nominal, TRY_CATCHALL, Prog.andThen, FG_CHECK],
    ((axes_limits_forwarding Env.nominal 42 2 3 4 5 0 1 false ⟨0, 1⟩ rfl (by decide)).1
      9 (-10) 10 (-10) 10 0 0
      (by simp [af_set_axes_limits_2d, Env.nominal, TRY_CATCHALL, Prog.andThen,
        FG_CHECK])).2.1 rfl,
    ((axes_limits_forwarding Env.nominal 42 2 3 4 5 0 1 false ⟨0, 1⟩ rfl (by decide)).1
      9 (-10) 10 (-10) 10 0 0
      (by simp [af_set_axes_limits_2d, Env.nominal, TRY_CATCHALL, Prog.andThen,
        FG_CHECK])).2.2.2.2⟩

/-- C5: `af_set_axes_limits_compute` on a non-null window in a graphics-enabled
build.  (1) The chart type requested is 3D exactly when the z array handle is
non-null, 2D otherwise.  (2) Every call of `fg_set_chart_axes_limits` carries
the results of `af_min_all`/`af_max_all` over x and y (and over z in the 3D
case), passed through `step_round(min, false)`/`step_round(max, true)` when
`exact` is false; in the 2D case the z limits are -1 and 1 when `exact` is
true and `step_round(-1, false)`, `step_round(1, true)` when it is false.
(3) The reductions called are an initial part of min x, max x, min y, max y in
the 2D case, and of min x, max x, min y, max y, min z, max z in the 3D case.
(4) If a reduction that was called reports failure, `fg_set_chart_axes_limits`
is not called and the code returned is a non-success code (provided
`processException` never yields `AF_SUCCESS`).  (5) When every collaborator
succeeds the limits are set and `AF_SUCCESS` is returned. -/
theorem axes_limits_compute_contract (env : Env) (window x y z : Handle) (exact : Bool)
    (props : af_cell) (hg : env.WITH_GRAPHICS = true) (hw : window ≠ 0)
    (hpe : ∀ e, env.processException e ≠ .AF_SUCCESS) :
    (∀ w r c t, Event.getChart w r c t ∈
        (af_set_axes_limits_compute env window x y z exact props ()).trace →
      (z ≠ 0 → t = .FG_CHART_3D) ∧ (z = 0 → t = .FG_CHART_2D)) ∧
    (∀ ch a b c d e f, Event.fg_set_chart_axes_limits ch a b c d e f ∈
        (af_set_axes_limits_compute env window x y z exact props ()).trace →
      (exact = true →
        a = (env.af_min_all x).2 ∧ b = (env.af_max_all x).2 ∧
        c = (env.af_min_all y).2 ∧ d = (env.af_max_all y).2 ∧
        (z ≠ 0 → e = (env.af_min_all z).2 ∧ f = (env.af_max_all z).2) ∧
        (z = 0 → e = -1 ∧ f = 1)) ∧
      (exact = false →
        a = env.step_round (env.af_min_all x).2 false ∧
        b = env.step_round (env.af_max_all x).2 true ∧
        c = env.step_round (env.af_min_all y).2 false ∧
        d = env.step_round (env.af_max_all y).2 true ∧
        (z ≠ 0 → e = env.step_round (env.af_min_all z).2 false ∧
          f = env.step_round (env.af_max_all z).2 true) ∧
        (z = 0 → e = env.step_round (-1) false ∧ f = env.step_round 1 true))) ∧
    ((z = 0 →
        (af_set_axes_limits_compute env window x y z exact props ()).trace.filter
          Event.isReduction <+:
          [.af_min_all x, .af_max_all x, .af_min_all y, .af_max_all y]) ∧
     (z ≠ 0 →
        (af_set_axes_limits_compute env window x y z exact props ()).trace.filter
          Event.isReduction <+:
          [.af_min_all x, .af_max_all x, .af_min_all y, .af_max_all y,
           .af_min_all z, .af_max_all z])) ∧
    ((∃ arr,
        (Event.af_min_all arr ∈
            (af_set_axes_limits_compute env window x y z exact props ()).trace ∧
          (env.af_min_all arr).1 ≠ .AF_SUCCESS) ∨
        (Event.af_max_all arr ∈
            (af_set_axes_limits_compute env window x y z exact props ()).trace ∧
          (env.af_max_all arr).1 ≠ .AF_SUCCESS)) →
      (∀ ch a b c d e f, Event.fg_set_chart_axes_limits ch a b c d e f ∉
        (af_set_axes_limits_compute env window x y z exact props ()).trace) ∧
      ∃ code, (af_set_axes_limits_compute env window x y z exact props ()).val = .ok code ∧
        code ≠ .AF_SUCCESS) ∧
    (env.getInstance = .ok () →
      ∀ ch, env.getChart window (selectedCell props).1 (selectedCell props).2
          (if z ≠ 0 then .FG_CHART_3D else .FG_CHART_2D) = .ok ch →
      (env.af_min_all x).1 = .AF_SUCCESS → (env.af_max_all x).1 = .AF_SUCCESS →
      (env.af_min_all y).1 = .AF_SUCCESS → (env.af_max_all y).1 = .AF_SUCCESS →
      (z ≠ 0 → (env.af_min_all z).1 = .AF_SUCCESS ∧ (env.af_max_all z).1 = .AF_SUCCESS) →
      env.setChartAxesOverride ch = .ok () →
      ∃ a b c d e f,
        (af_set_axes_limits_compute env window x y z exact props ()).trace =
          [.getInstance,
           .getChart window (selectedCell props).1 (selectedCell props).2
             (if z ≠ 0 then .FG_CHART_3D else .FG_CHART_2D),
           .af_min_all x, .af_max_all x, .af_min_all y, .af_max_all y] ++
          (if z ≠ 0 then [.af_min_all z, .af_max_all z] else []) ++
          [.setChartAxesOverride ch, .fg_set_chart_axes_limits ch a b c d e f]) ∧
    (∀ ch a b c d e f, Event.fg_set_chart_axes_limits ch a b c d e f ∈
        (af_set_axes_limits_compute env window x y z exact props ()).trace →
      env.fg_set_chart_axes_limits ch a b c d e f = .FG_ERR_NONE →
      (af_set_axes_limits_compute env window x y z exact props ()).val = .ok .AF_SUCCESS) := by
  obtain ⟨hok, hfail, -, -⟩ := compute_outcomes env window x y z exact props hg hw
  by_cases hall : ∃ ch, ComputeAllOk env window x y z props ch
  · obtain ⟨ch0, hc⟩ := hall
    obtain ⟨ht, hv⟩ := hok ch0 hc
    obtain ⟨hI, hC, h1, h2, h3, h4, h56, hO⟩ := hc
    simp only [ht, hv]
    by_cases hz : z = 0
    · refine ⟨?_, ?_, ?_, ?_, ?_, ?_⟩
      · simp [computePrelude, computeLimitsCall, computeCtype, hz]
      · intro ch a b c d e f hm
        simp [computePrelude, computeLimitsCall, computeCtype, hz] at hm
        obtain ⟨rfl, rfl, rfl, rfl, rfl, rfl, rfl⟩ := hm
        cases exact <;> simp [forwarded, hz]
      · simp [computePrelude, computeLimitsCall, computeCtype, hz, Event.isReduction,
          List.filter_cons]
      · rintro ⟨arr, h | h⟩ <;>
          simp [computePrelude, computeLimitsCall, computeCtype, hz] at h <;>
          obtain ⟨rfl | rfl, h⟩ := h <;> contradiction
      · intro _ ch hc
        simp [computeCtype, hz] at hC hc
        rw [hC] at hc
        cases hc
        intros
        simp [computePrelude, computeLimitsCall, computeCtype, hz]
      · intro ch a b c d e f hm hn
        simp [computePrelude, computeLimitsCall, computeCtype, hz] at hm
        obtain ⟨rfl, rfl, rfl, rfl, rfl, rfl, rfl⟩ := hm
        simp [computeLimitsStatus, hz, hn]
    · obtain ⟨h5, h6⟩ := h56 hz
      refine ⟨?_, ?_, ?_, ?_, ?_, ?_⟩
      · simp [computePrelude, computeLimitsCall, computeCtype, hz]
      · intro ch a b c d e f hm
        simp [computePrelude, computeLimitsCall, computeCtype, hz] at hm
        obtain ⟨rfl, rfl, rfl, rfl, rfl, rfl, rfl⟩ := hm
        cases exact <;> simp [forwarded, hz]
      · simp [computePrelude, computeLimitsCall, computeCtype, hz, Event.isReduction,
          List.filter_cons]
      · rintro ⟨arr, h | h⟩ <;>
          simp [computePrelude, computeLimitsCall, computeCtype, hz] at h <;>
          obtain ⟨rfl | rfl | rfl, h⟩ := h <;> contradiction
      · intro _ ch hc
        simp [computeCtype, hz] at hC hc
        rw [hC] at hc
        cases hc
        intros
        simp [computePrelude, computeLimitsCall, computeCtype, hz]
      · intro ch a b c d e f hm hn
        simp [computePrelude, computeLimitsCall, computeCtype, hz] at hm
        obtain ⟨rfl, rfl, rfl, rfl, rfl, rfl, rfl⟩ := hm
        simp [computeLimitsStatus, hz, hn]
  · obtain ⟨hp, e0, hv⟩ := hfail hall
    have hnolim : ∀ ch a b c d e f, Event.fg_set_chart_axes_limits ch a b c d e f ∉
        (af_set_axes_limits_compute env window x y z exact props ()).trace := by
      intro ch a b c d e f hm
      have := hp.subset hm
      by_cases hz : z = 0 <;> simp [computePrelude, hz] at this
    refine ⟨?_, ?_, ?_, ?_, ?_, ?_⟩
    · intro w r c t hm
      have := hp.subset hm
      by_cases hz : z = 0 <;> simp [computePrelude, computeCtype, hz] at this ⊢ <;>
        exact this.2.2.2
    · intro ch a b c d e f hm
      exact absurd hm (hnolim ch a b c d e f)
    · have := hp.filter Event.isReduction
      by_cases hz : z = 0
      · subst hz
        simp only [ne_eq, not_true_eq_false, not_false_eq_true, false_implies, true_implies,
          and_true]
        refine this.trans ?_
        simp [computePrelude, Event.isReduction, List.filter_cons]
      · simp only [hz, ne_eq, not_true_eq_false, not_false_eq_true, false_implies, true_implies,
          true_and]
        refine this.trans ?_
        simp [computePrelude, hz, Event.isReduction, List.filter_cons]
    · intro _
      exact ⟨hnolim, _, hv, hpe e0⟩
    · intro hI ch hC h1 h2 h3 h4 h56 hO
      exact absurd ⟨ch, hI, hC, h1, h2, h3, h4, h56, hO⟩ hall
    · intro ch a b c d e f hm
      exact absurd hm (hnolim ch a b c d e f)

theorem axes_limits_compute_contract_witness :
    Env.nominal.WITH_GRAPHICS = true ∧ (42 : Handle) ≠ 0 ∧
    (∀ e, Env.nominal.processException e ≠ .AF_SUCCESS) ∧
    Event.fg_set_chart_axes_limits 9 (-3) 5 (-3) 5 (-1) 1 ∈
      (af_set_axes_limits_compute Env.nominal 42 5 6 0 true ⟨0, 1⟩ ()).trace ∧
    ((-3 : Scalar) = (Env.nominal.af_min_all 5).2 ∧ (5 : Scalar) = (Env.nominal.af_max_all 5).2 ∧
     (-3 : Scalar) = (Env.nominal.af_min_all 6).2 ∧ (5 : Scalar) = (Env.nominal.af_max_all 6).2 ∧
     ((0 : Handle) ≠ 0 → (-1 : Scalar) = (Env.nominal.af_min_all 0).2 ∧
        (1 : Scalar) = (Env.nominal.af_max_all 0).2) ∧
     ((0 : Handle) = 0 → (-1 : Scalar) = -1 ∧ (1 : Scalar) = 1)) :=
  ⟨rfl, by decide, fun _ => by simp [Env.nominal],
    by simp [af_set_axes_limits_compute, Env.nominal, TRY_CATCHALL, Prog.andThen, AF_CHECK,
      FG_CHECK],
    ((axes_limits_compute_contract Env.nominal 42 5 6 0 true ⟨0, 1⟩ rfl (by decide)
      (fun _ => by simp [Env.nominal])).2.1 9 (-3) 5 (-3) 5 (-1) 1
      (by simp [af_set_axes_limits_compute, Env.nominal, TRY_CATCHALL, Prog.andThen, AF_CHECK,
        FG_CHECK])).1 rfl⟩

/-- C6: the chart acted on by `af_set_axes_limits_compute`,
`af_set_axes_limits_2d`, `af_set_axes_limits_3d` and `af_set_axes_titles` (non-null
window, graphics-enabled build).  The selected cell is (row, col) when both are
greater than -1 and (0, 0) in every other case.  Every chart lookup of the four
functions is `getChart(window, selected row, selected col, _)`; it is made as
soon as the manager is available; and each later call on a chart (axes
override, axes titles) is on the chart that lookup returned.
`af_set_axes_titles` asks for a 3D chart exactly when `ztitle` is non-null and
forwards `xtitle`, `ytitle`, `ztitle` unchanged: the calls are then exactly
getInstance, getChart, fg_set_chart_axes_titles. -/
theorem chart_selection (env : Env) (window x y z : Handle)
    (xmin xmax ymin ymax zmin zmax : Scalar) (exact : Bool) (xtitle ytitle ztitle : CStr)
    (props : af_cell) (hg : env.WITH_GRAPHICS = true) (hw : window ≠ 0) :
    ((props.row > -1 ∧ props.col > -1 → selectedCell props = (props.row, props.col)) ∧
     (¬ (props.row > -1 ∧ props.col > -1) → selectedCell props = (0, 0))) ∧
    (∀ w r c t,
      (Event.getChart w r c t ∈
          (af_set_axes_limits_compute env window x y z exact props ()).trace ∨
       Event.getChart w r c t ∈
          (af_set_axes_limits_2d env window xmin xmax ymin ymax exact props ()).trace ∨
       Event.getChart w r c t ∈
          (af_set_axes_limits_3d env window xmin xmax ymin ymax zmin zmax exact props ()).trace ∨
       Event.getChart w r c t ∈
          (af_set_axes_titles env window xtitle ytitle ztitle props ()).trace) →
      w = window ∧ (r, c) = selectedCell props) ∧
    (env.getInstance = .ok () →
      Event.getChart window (selectedCell props).1 (selectedCell props).2 (computeCtype z) ∈
          (af_set_axes_limits_compute env window x y z exact props ()).trace ∧
      Event.getChart window (selectedCell props).1 (selectedCell props).2 .FG_CHART_2D ∈
          (af_set_axes_limits_2d env window xmin xmax ymin ymax exact props ()).trace ∧
      Event.getChart window (selectedCell props).1 (selectedCell props).2 .FG_CHART_3D ∈
          (af_set_axes_limits_3d env window xmin xmax ymin ymax zmin zmax exact props ()).trace ∧
      Event.getChart window (selectedCell props).1 (selectedCell props).2
          (if ztitle.isSome then .FG_CHART_3D else .FG_CHART_2D) ∈
          (af_set_axes_titles env window xtitle ytitle ztitle props ()).trace) ∧
    (∀ ch,
      (Event.setChartAxesOverride ch ∈
          (af_set_axes_limits_compute env window x y z exact props ()).trace →
        env.getChart window (selectedCell props).1 (selectedCell props).2 (computeCtype z)
          = .ok ch) ∧
      (Event.setChartAxesOverride ch ∈
          (af_set_axes_limits_2d env window xmin xmax ymin ymax exact props ()).trace →
        env.getChart window (selectedCell props).1 (selectedCell props).2 .FG_CHART_2D
          = .ok ch) ∧
      (Event.setChartAxesOverride ch ∈
          (af_set_axes_limits_3d env window xmin xmax ymin ymax zmin zmax exact props ()).trace →
        env.getChart window (selectedCell props).1 (selectedCell props).2 .FG_CHART_3D
          = .ok ch)) ∧
    (∀ w r c t, Event.getChart w r c t ∈
        (af_set_axes_titles env window xtitle ytitle ztitle props ()).trace →
      (t = .FG_CHART_3D ↔ ztitle ≠ none)) ∧
    (∀ ch xt yt zt, Event.fg_set_chart_axes_titles ch xt yt zt ∈
        (af_set_axes_titles env window xtitle ytitle ztitle props ()).trace →
      xt = xtitle ∧ yt = ytitle ∧ zt = ztitle ∧
      env.getChart window (selectedCell props).1 (selectedCell props).2
        (if ztitle.isSome then .FG_CHART_3D else .FG_CHART_2D) = .ok ch ∧
      (af_set_axes_titles env window xtitle ytitle ztitle props ()).trace =
        [.getInstance,
         .getChart window (selectedCell props).1 (selectedCell props).2
           (if ztitle.isSome then .FG_CHART_3D else .FG_CHART_2D),
         .fg_set_chart_axes_titles ch xtitle ytitle ztitle]) ∧
    (∀ ch, env.getInstance = .ok () →
      env.getChart window (selectedCell props).1 (selectedCell props).2
        (if ztitle.isSome then .FG_CHART_3D else .FG_CHART_2D) = .ok ch →
      Event.fg_set_chart_axes_titles ch xtitle ytitle ztitle ∈
        (af_set_axes_titles env window xtitle ytitle ztitle props ()).trace) := by
  obtain ⟨hsel2, hget2, hov2⟩ :=
    chart_lookup_2d env window xmin xmax ymin ymax exact props hg hw
  obtain ⟨hsel3, hget3, hov3⟩ :=
    chart_lookup_3d env window xmin xmax ymin ymax zmin zmax exact props hg hw
  obtain ⟨hok, hfail, hpre, hovc⟩ := compute_outcomes env window x y z exact props hg hw
  obtain ⟨hterr, htok⟩ := titles_outcomes env window xtitle ytitle ztitle props hg hw
  have hselc : ∀ w r c t, Event.getChart w r c t ∈
      (af_set_axes_limits_compute env window x y z exact props ()).trace →
      w = window ∧ (r, c) = selectedCell props := by
    intro w r c t hm
    by_cases hall : ∃ ch, ComputeAllOk env window x y z props ch
    · obtain ⟨ch0, hc⟩ := hall
      rw [(hok ch0 hc).1] at hm
      by_cases hz : z = 0 <;> simp [computePrelude, computeLimitsCall, hz] at hm <;>
        simp [hm.1, hm.2.1, hm.2.2.1]
    · have := (hfail hall).1.subset hm
      by_cases hz : z = 0 <;> simp [computePrelude, hz] at this <;>
        simp [this.1, this.2.1, this.2.2.1]
  have hselt : ∀ w r c t, Event.getChart w r c t ∈
      (af_set_axes_titles env window xtitle ytitle ztitle props ()).trace →
      (w = window ∧ (r, c) = selectedCell props) ∧ (t = .FG_CHART_3D ↔ ztitle ≠ none) := by
    intro w r c t hm
    rcases hI : env.getInstance with e | u
    · rw [hterr e hI] at hm
      simp at hm
    · rcases hC : env.getChart window (selectedCell props).1 (selectedCell props).2
          (if ztitle.isSome then .FG_CHART_3D else .FG_CHART_2D) with e | ch
      · rw [(htok hI).1 e hC] at hm
        simp at hm
        obtain ⟨rfl, rfl, rfl, rfl⟩ := hm
        cases ztitle <;> simp
      · rw [(htok hI).2 ch hC] at hm
        simp at hm
        obtain ⟨rfl, rfl, rfl, rfl⟩ := hm
        cases ztitle <;> simp
  refine ⟨⟨?_, ?_⟩, ?_, ?_, ?_, ?_, ?_, ?_⟩
  · intro h
    simp [selectedCell, h]
  · intro h
    simp [selectedCell, h]
  · rintro w r c t (hm | hm | hm | hm)
    · exact hselc w r c t hm
    · exact hsel2 w r c t hm
    · exact hsel3 w r c t hm
    · exact (hselt w r c t hm).1
  · intro hI
    refine ⟨(hpre hI).subset (by simp), hget2 hI, hget3 hI, ?_⟩
    rcases hC : env.getChart window (selectedCell props).1 (selectedCell props).2
        (if ztitle.isSome then .FG_CHART_3D else .FG_CHART_2D) with e | ch
    · rw [(htok hI).1 e hC]
      simp
    · rw [(htok hI).2 ch hC]
      simp
  · intro ch
    exact ⟨hovc ch, hov2 ch, hov3 ch⟩
  · intro w r c t hm
    exact (hselt w r c t hm).2
  · intro ch xt yt zt hm
    rcases hI : env.getInstance with e | u
    · rw [hterr e hI] at hm
      simp at hm
    · rcases hC : env.getChart window (selectedCell props).1 (selectedCell props).2
          (if ztitle.isSome then .FG_CHART_3D else .FG_CHART_2D) with e | ch0
      · rw [(htok hI).1 e hC] at hm
        simp at hm
      · rw [(htok hI).2 ch0 hC] at hm ⊢
        simp at hm
        obtain ⟨rfl, rfl, rfl, rfl⟩ := hm
        simp
  · intro ch hI hC
    rw [(htok hI).2 ch hC]
    simp

theorem chart_selection_witness :
    Env.nominal.WITH_GRAPHICS = true ∧ (42 : Handle) ≠ 0 ∧
    ¬ ((⟨-1, 3⟩ : af_cell).row > -1 ∧ (⟨-1, 3⟩ : af_cell).col > -1) ∧
    selectedCell ⟨-1, 3⟩ = (0, 0) ∧
    Env.nominal.getInstance = .ok () ∧
    Env.nominal.getChart 42 0 0 .FG_CHART_3D = .ok 9 ∧
    Event.getChart 42 0 0 .FG_CHART_3D ∈
      (af_set_axes_titles Env.nominal 42 (some "x") (some "y") (some "z") ⟨-1, 3⟩ ()).trace ∧
    Event.fg_set_chart_axes_titles 9 (some "x") (some "y") (some "z") ∈
      (af_set_axes_titles Env.nominal 42 (some "x") (some "y") (some "z") ⟨-1, 3⟩ ()).trace :=
  ⟨rfl, by decide, by decide,
    (chart_selection Env.nominal 42 5 6 7 0 1 0 1 0 1 true (some "x") (some "y") (some "z")
      ⟨-1, 3⟩ rfl (by decide)).1.2 (by decide),
    rfl, rfl,
    ((chart_selection Env.nominal 42 5 6 7 0 1 0 1 0 1 true (some "x") (some "y") (some "z")
      ⟨-1, 3⟩ rfl (by decide)).2.2.1 rfl).2.2.2,
    (chart_selection Env.nominal 42 5 6 7 0 1 0 1 0 1 true (some "x") (some "y") (some "z")
      ⟨-1, 3⟩ rfl (by decide)).2.2.2.2.2.2 9 rfl rfl⟩

/-- C2, as stated, fails on the fallback path.  When `glMapBuffer` returns the
null pointer no device-to-host copy is issued at all, and when Forge fails to
give the vertex buffer nothing is ever bound. -/
theorem copy_plot_fallback_claim_fails :
    ¬ (Env.mapFails.checkGraphicsInteropCapability = .ok false →
        ∃ dst src n st, Event.cudaMemcpyAsync dst src n .cudaMemcpyDeviceToHost st ∈
          (copy_plot Env.mapFails ⟨100, 16⟩ 7 ()).trace) ∧
    ¬ (Env.vboFails.checkGraphicsInteropCapability = .ok false →
        ∃ b, Event.glBindBuffer .GL_ARRAY_BUFFER b ∈
          (copy_plot Env.vboFails ⟨100, 16⟩ 7 ()).trace) := by
  constructor <;>
  simp [copy_plot, Env.mapFails, Env.vboFails, Env.fallback, Env.nominal, Prog.bind_eq, Prog.andThen_ccall, Prog.andThen_call_ok,
    Prog.andThen_call_error, Prog.andThen_ret, Prog.andThen_pure, Prog.andThen_FG_CHECK,
    Prog.andThen_CUDA_CHECK, Prog.andThen_ite, Prog.andThen_assoc, Res.prepend_mk]

/-- C2 (amended): `copy_plot` chooses one of two strategies from the result of
`checkGraphicsInteropCapability()`.  When it is true, no call of the run is
`fg_get_plot_vertex_buffer`, `glBindBuffer` or `glMapBuffer`, and once the plot's
graphics resource is obtained the resource is mapped, exactly one copy, device
to device, from `P.get()` to the mapped pointer, is issued, and the resource is
unmapped.  When it is false, no call of the run is `cudaGraphicsMapResources` or
`cudaGraphicsUnmapResources`, and once both Forge queries and the OpenGL check
have succeeded the vertex buffer is bound and `glMapBuffer` is called; the only
copy is device to host and it is issued exactly when `glMapBuffer` returns a
non-null pointer. -/
theorem copy_plot_strategy (env : Env) (P : Array) (plot st : Handle)
    (hF : env.forgePlugin = .ok ()) (hS : env.getActiveStream = .ok st) :
    (env.checkGraphicsInteropCapability = .ok true →
      (∀ ev ∈ (copy_plot env P plot ()).trace, ev.isHostStaging = false) ∧
      (∀ res, env.getPlotResources plot = .ok res →
        [.forgePlugin, .getActiveStream, .checkGraphicsInteropCapability,
         .getPlotResources plot, .cudaGraphicsMapResources 1 res st,
         .cudaGraphicsResourceGetMappedPointer res,
         .cudaMemcpyAsync (env.cudaGraphicsResourceGetMappedPointer res).1 P.get
           (env.cudaGraphicsResourceGetMappedPointer res).2 .cudaMemcpyDeviceToDevice st,
         .cudaGraphicsUnmapResources 1 res st] <+: (copy_plot env P plot ()).trace ∧
        (copy_plot env P plot ()).trace.filter Event.isMemcpy =
          [.cudaMemcpyAsync (env.cudaGraphicsResourceGetMappedPointer res).1 P.get
            (env.cudaGraphicsResourceGetMappedPointer res).2 .cudaMemcpyDeviceToDevice st])) ∧
    (env.checkGraphicsInteropCapability = .ok false →
      (∀ ev ∈ (copy_plot env P plot ()).trace, ev.isInteropMapping = false) ∧
      ((env.fg_get_plot_vertex_buffer plot).1 = .FG_ERR_NONE →
        (env.fg_get_plot_vertex_buffer_size plot).1 = .FG_ERR_NONE →
        env.CheckGL "Begin CUDA fallback-resource copy" = .ok () →
        [.forgePlugin, .getActiveStream, .checkGraphicsInteropCapability,
         .fg_get_plot_vertex_buffer plot, .fg_get_plot_vertex_buffer_size plot,
         .CheckGL "Begin CUDA fallback-resource copy",
         .glBindBuffer .GL_ARRAY_BUFFER (env.fg_get_plot_vertex_buffer plot).2,
         .glMapBuffer .GL_ARRAY_BUFFER .GL_WRITE_ONLY] <+: (copy_plot env P plot ()).trace ∧
        (copy_plot env P plot ()).trace.filter Event.isMemcpy =
          (if env.glMapBuffer .GL_ARRAY_BUFFER .GL_WRITE_ONLY ≠ 0 then
            [.cudaMemcpyAsync (env.glMapBuffer .GL_ARRAY_BUFFER .GL_WRITE_ONLY) P.get
              (env.fg_get_plot_vertex_buffer_size plot).2 .cudaMemcpyDeviceToHost st]
          else []))) := by
  obtain ⟨-, p2⟩ := copy_plot_paths env P plot
  obtain ⟨-, p4⟩ := p2 hF
  obtain ⟨-, pI, pF⟩ := p4 st hS
  refine ⟨fun hT => ?_, fun hT => ?_⟩
  · obtain ⟨i1, i2⟩ := pI hT
    rcases hG : env.getPlotResources plot with e | res
    · rw [i1 e hG]
      simp [Event.isHostStaging]
    · obtain ⟨i3, i4⟩ := i2 res hG
      rcases hA : env.CheckGL "After cuda resource copy" with e | u
      · rw [i3 e hA]
        simp [interopCalls, Event.isHostStaging, Event.isMemcpy, List.filter_cons]
      · rw [i4 hA]
        simp [interopCalls, Event.isHostStaging, Event.isMemcpy, List.filter_cons]
  · obtain ⟨f1, f2⟩ := pF hT
    by_cases hb : (env.fg_get_plot_vertex_buffer plot).1 = .FG_ERR_NONE
    swap
    · rw [f1 hb]
      simp [Event.isInteropMapping, hb]
    obtain ⟨f3, f4⟩ := f2 hb
    by_cases hs : (env.fg_get_plot_vertex_buffer_size plot).1 = .FG_ERR_NONE
    swap
    · rw [f3 hs]
      simp [Event.isInteropMapping, hs]
    obtain ⟨f5, f6⟩ := f4 hs
    rcases hB : env.CheckGL "Begin CUDA fallback-resource copy" with e | u
    · rw [f5 e hB]
      simp [Event.isInteropMapping]
    obtain ⟨f7, f8⟩ := f6 hB
    by_cases hp : env.glMapBuffer .GL_ARRAY_BUFFER .GL_WRITE_ONLY = 0
    · rw [f7 hp]
      simp [fallbackPrelude, Event.isInteropMapping, Event.isMemcpy, List.filter_cons, hp]
    obtain ⟨f9, f10⟩ := f8 hp
    by_cases hm : fallbackCopyStatus env P plot st = .cudaSuccess
    swap
    · rw [f9 hm]
      simp [fallbackPrelude, fallbackCopy, Event.isInteropMapping, Event.isMemcpy,
        List.filter_cons, hp]
    obtain ⟨f11, f12⟩ := f10 hm
    by_cases hy : env.cudaStreamSynchronize st = .cudaSuccess
    swap
    · rw [f11 hy]
      simp [fallbackPrelude, fallbackCopy, Event.isInteropMapping, Event.isMemcpy,
        List.filter_cons, hp]
    · rw [f12 hy]
      simp [fallbackPrelude, fallbackCopy, Event.isInteropMapping, Event.isMemcpy,
        List.filter_cons, hp]

theorem copy_plot_strategy_witness :
    Env.nominal.forgePlugin = .ok () ∧ Env.nominal.getActiveStream = .ok 3 ∧
    Env.nominal.checkGraphicsInteropCapability = .ok true ∧
    Env.nominal.getPlotResources 7 = .ok 11 ∧
    (copy_plot Env.nominal ⟨100, 16⟩ 7 ()).trace.filter Event.isMemcpy =
      [.cudaMemcpyAsync 500 100 64 .cudaMemcpyDeviceToDevice 3] ∧
    Env.fallback.forgePlugin = .ok () ∧ Env.fallback.getActiveStream = .ok 3 ∧
    Env.fallback.checkGraphicsInteropCapability = .ok false ∧
    (Env.fallback.fg_get_plot_vertex_buffer 7).1 = .FG_ERR_NONE ∧
    (Env.fallback.fg_get_plot_vertex_buffer_size 7).1 = .FG_ERR_NONE ∧
    Env.fallback.CheckGL "Begin CUDA fallback-resource copy" = .ok () ∧
    (copy_plot Env.fallback ⟨100, 16⟩ 7 ()).trace.filter Event.isMemcpy =
      [.cudaMemcpyAsync 700 100 96 .cudaMemcpyDeviceToHost 3] :=
  ⟨rfl, rfl, rfl, rfl,
    (((copy_plot_strategy Env.nominal ⟨100, 16⟩ 7 3 rfl rfl).1 rfl).2 11 rfl).2,
    rfl, rfl, rfl, rfl, rfl, rfl,
    (((copy_plot_strategy Env.fallback ⟨100, 16⟩ 7 3 rfl rfl).2 rfl).2 rfl rfl rfl).2⟩

/-- C9: in both copy paths of `copy_plot` every copy reads from `P.get()`, the
array's first element.  A device-to-device copy is issued only on the interop
path; it writes to the pointer and copies the byte count that
`cudaGraphicsResourceGetMappedPointer` reported for the mapped resource.  A
device-to-host copy is issued only on the fallback path; it writes to the
pointer `glMapBuffer` returned and copies the byte count that
`fg_get_plot_vertex_buffer_size` reported.  The run does not depend on the
array's element count. -/
theorem copy_plot_byte_count (env : Env) (P : Array) (plot : Handle) :
    (∀ dst src n kind st, Event.cudaMemcpyAsync dst src n kind st ∈
        (copy_plot env P plot ()).trace →
      src = P.get ∧
      (kind = .cudaMemcpyDeviceToDevice →
        env.checkGraphicsInteropCapability = .ok true ∧
        ∃ res, env.getPlotResources plot = .ok res ∧
          dst = (env.cudaGraphicsResourceGetMappedPointer res).1 ∧
          n = (env.cudaGraphicsResourceGetMappedPointer res).2) ∧
      (kind = .cudaMemcpyDeviceToHost →
        env.checkGraphicsInteropCapability = .ok false ∧
        dst = env.glMapBuffer .GL_ARRAY_BUFFER .GL_WRITE_ONLY ∧
        n = (env.fg_get_plot_vertex_buffer_size plot).2)) ∧
    (∀ k, copy_plot env ⟨P.ptr, k⟩ plot () = copy_plot env P plot ()) := by
  refine ⟨?_, fun k => rfl⟩
  intro dst src n kind st0 hmem
  obtain ⟨p1, p2⟩ := copy_plot_paths env P plot
  rcases hF : env.forgePlugin with e | u
  · rw [p1 e hF] at hmem
    simp at hmem
  obtain ⟨p3, p4⟩ := p2 hF
  rcases hS : env.getActiveStream with e | st
  · rw [p3 e hS] at hmem
    simp at hmem
  obtain ⟨p5, pI, pF⟩ := p4 st hS
  rcases hT : env.checkGraphicsInteropCapability with e | b
  · rw [p5 e hT] at hmem
    simp at hmem
  cases b
  · obtain ⟨f1, f2⟩ := pF hT
    by_cases hb : (env.fg_get_plot_vertex_buffer plot).1 = .FG_ERR_NONE
    swap
    · rw [f1 hb] at hmem
      simp at hmem
    obtain ⟨f3, f4⟩ := f2 hb
    by_cases hs : (env.fg_get_plot_vertex_buffer_size plot).1 = .FG_ERR_NONE
    swap
    · rw [f3 hs] at hmem
      simp at hmem
    obtain ⟨f5, f6⟩ := f4 hs
    rcases hB : env.CheckGL "Begin CUDA fallback-resource copy" with e | u
    · rw [f5 e hB] at hmem
      simp at hmem
    obtain ⟨f7, f8⟩ := f6 hB
    by_cases hp : env.glMapBuffer .GL_ARRAY_BUFFER .GL_WRITE_ONLY = 0
    · rw [f7 hp] at hmem
      simp [fallbackPrelude] at hmem
    obtain ⟨f9, f10⟩ := f8 hp
    by_cases hm : fallbackCopyStatus env P plot st = .cudaSuccess
    swap
    · rw [f9 hm] at hmem
      simp [fallbackPrelude, fallbackCopy] at hmem
      obtain ⟨rfl, rfl, rfl, rfl, rfl⟩ := hmem
      simp
    obtain ⟨f11, f12⟩ := f10 hm
    by_cases hy : env.cudaStreamSynchronize st = .cudaSuccess
    swap
    · rw [f11 hy] at hmem
      simp [fallbackPrelude, fallbackCopy] at hmem
      obtain ⟨rfl, rfl, rfl, rfl, rfl⟩ := hmem
      simp
    · rw [f12 hy] at hmem
      simp [fallbackPrelude, fallbackCopy] at hmem
      obtain ⟨rfl, rfl, rfl, rfl, rfl⟩ := hmem
      simp
  · obtain ⟨i1, i2⟩ := pI hT
    rcases hG : env.getPlotResources plot with e | res
    · rw [i1 e hG] at hmem
      simp at hmem
    · obtain ⟨i3, i4⟩ := i2 res hG
      rcases hA : env.CheckGL "After cuda resource copy" with e | u
      · rw [i3 e hA] at hmem
        simp [interopCalls] at hmem
        obtain ⟨rfl, rfl, rfl, rfl, rfl⟩ := hmem
        simp
      · rw [i4 hA] at hmem
        simp [interopCalls] at hmem
        obtain ⟨rfl, rfl, rfl, rfl, rfl⟩ := hmem
        simp

theorem copy_plot_byte_count_witness :
    Event.cudaMemcpyAsync 700 100 96 .cudaMemcpyDeviceToHost 3 ∈
      (copy_plot Env.fallback ⟨100, 16⟩ 7 ()).trace ∧
    (100 : Handle) = (⟨100, 16⟩ : Array).get ∧
    Env.fallback.checkGraphicsInteropCapability = .ok false ∧
    (700 : Handle) = Env.fallback.glMapBuffer .GL_ARRAY_BUFFER .GL_WRITE_ONLY ∧
    (96 : Nat) = (Env.fallback.fg_get_plot_vertex_buffer_size 7).2 :=
  ⟨by simp [copy_plot, Array.get, Env.fallback, Env.nominal, Prog.bind_eq, Prog.andThen_ccall,
      Prog.andThen_call_ok, Prog.andThen_ret, Prog.andThen_pure, Prog.andThen_FG_CHECK,
      Prog.andThen_CUDA_CHECK, Prog.andThen_ite, Prog.andThen_assoc, Res.prepend_mk],
    ((copy_plot_byte_count Env.fallback ⟨100, 16⟩ 7).1 700 100 96 .cudaMemcpyDeviceToHost 3
      (by simp [copy_plot, Array.get, Env.fallback, Env.nominal, Prog.bind_eq, Prog.andThen_ccall,
        Prog.andThen_call_ok, Prog.andThen_ret, Prog.andThen_pure, Prog.andThen_FG_CHECK,
        Prog.andThen_CUDA_CHECK, Prog.andThen_ite, Prog.andThen_assoc, Res.prepend_mk])).1,
    (((copy_plot_byte_count Env.fallback ⟨100, 16⟩ 7).1 700 100 96 .cudaMemcpyDeviceToHost 3
      (by simp [copy_plot, Array.get, Env.fallback, Env.nominal, Prog.bind_eq, Prog.andThen_ccall,
        Prog.andThen_call_ok, Prog.andThen_ret, Prog.andThen_pure, Prog.andThen_FG_CHECK,
        Prog.andThen_CUDA_CHECK, Prog.andThen_ite, Prog.andThen_assoc,
        Res.prepend_mk])).2.2 rfl)⟩

/-- C10, as stated, fails: on the fallback path with a non-null mapping, when
`cudaMemcpyAsync` reports an error `CUDA_CHECK` raises and the stream is never
synchronised, although `glMapBuffer` returned a non-null pointer. -/
theorem fallback_sync_claim_fails :
    Env.copyFails.checkGraphicsInteropCapability = .ok false ∧
    ¬ ((∃ st, Event.cudaStreamSynchronize st ∈ (copy_plot Env.copyFails ⟨100, 16⟩ 7 ()).trace) ↔
        Env.copyFails.glMapBuffer .GL_ARRAY_BUFFER .GL_WRITE_ONLY ≠ 0) := by
  constructor
  · rfl
  · simp [copy_plot, Env.copyFails, Env.fallback, Env.nominal, Prog.bind_eq, Prog.andThen_ccall, Prog.andThen_call_ok,
    Prog.andThen_call_error, Prog.andThen_ret, Prog.andThen_pure, Prog.andThen_FG_CHECK,
    Prog.andThen_CUDA_CHECK, Prog.andThen_ite, Prog.andThen_assoc, Res.prepend_mk]

/-- C10 (amended): the fallback path of `copy_plot` once the vertex buffer has
been bound and `glMapBuffer` called (both Forge queries and the OpenGL check
before them succeeded).  The device-to-host copy is issued exactly when
`glMapBuffer` returns a non-null pointer; the stream is synchronised exactly
when, in addition, the copy reports success; `glUnmapBuffer` is called exactly
when, in addition, the synchronisation reports success, hence only after a
successful map.  On every normal return the calls are the prelude, then copy,
synchronise, unmap if the map succeeded and nothing if it did not, then
`glBindBuffer(GL_ARRAY_BUFFER, 0)` as the last buffer binding, then the final
OpenGL check; and the function returns normally exactly when no CUDA call of
the run failed and the final OpenGL check passes. -/
theorem fallback_copy_discipline (env : Env) (P : Array) (plot st : Handle)
    (hF : env.forgePlugin = .ok ()) (hS : env.getActiveStream = .ok st)
    (hT : env.checkGraphicsInteropCapability = .ok false)
    (hb : (env.fg_get_plot_vertex_buffer plot).1 = .FG_ERR_NONE)
    (hs : (env.fg_get_plot_vertex_buffer_size plot).1 = .FG_ERR_NONE)
    (hB : env.CheckGL "Begin CUDA fallback-resource copy" = .ok ()) :
    ((∃ dst src n kind s, Event.cudaMemcpyAsync dst src n kind s ∈
        (copy_plot env P plot ()).trace) ↔
      env.glMapBuffer .GL_ARRAY_BUFFER .GL_WRITE_ONLY ≠ 0) ∧
    ((∃ s, Event.cudaStreamSynchronize s ∈ (copy_plot env P plot ()).trace) ↔
      env.glMapBuffer .GL_ARRAY_BUFFER .GL_WRITE_ONLY ≠ 0 ∧
      env.cudaMemcpyAsync (env.glMapBuffer .GL_ARRAY_BUFFER .GL_WRITE_ONLY) P.get
        (env.fg_get_plot_vertex_buffer_size plot).2 .cudaMemcpyDeviceToHost st
        = .cudaSuccess) ∧
    ((∃ t, Event.glUnmapBuffer t ∈ (copy_plot env P plot ()).trace) ↔
      env.glMapBuffer .GL_ARRAY_BUFFER .GL_WRITE_ONLY ≠ 0 ∧
      env.cudaMemcpyAsync (env.glMapBuffer .GL_ARRAY_BUFFER .GL_WRITE_ONLY) P.get
        (env.fg_get_plot_vertex_buffer_size plot).2 .cudaMemcpyDeviceToHost st
        = .cudaSuccess ∧
      env.cudaStreamSynchronize st = .cudaSuccess) ∧
    ((copy_plot env P plot ()).val = .ok () →
      (copy_plot env P plot ()).trace =
        [.forgePlugin, .getActiveStream, .checkGraphicsInteropCapability,
         .fg_get_plot_vertex_buffer plot, .fg_get_plot_vertex_buffer_size plot,
         .CheckGL "Begin CUDA fallback-resource copy",
         .glBindBuffer .GL_ARRAY_BUFFER (env.fg_get_plot_vertex_buffer plot).2,
         .glMapBuffer .GL_ARRAY_BUFFER .GL_WRITE_ONLY] ++
        (if env.glMapBuffer .GL_ARRAY_BUFFER .GL_WRITE_ONLY ≠ 0 then
          [.cudaMemcpyAsync (env.glMapBuffer .GL_ARRAY_BUFFER .GL_WRITE_ONLY) P.get
             (env.fg_get_plot_vertex_buffer_size plot).2 .cudaMemcpyDeviceToHost st,
           .cudaStreamSynchronize st, .glUnmapBuffer .GL_ARRAY_BUFFER]
         else []) ++
        [.glBindBuffer .GL_ARRAY_BUFFER 0, .CheckGL "End CUDA fallback-resource copy"]) ∧
    ((copy_plot env P plot ()).val = .ok () ↔
      (env.glMapBuffer .GL_ARRAY_BUFFER .GL_WRITE_ONLY ≠ 0 →
        env.cudaMemcpyAsync (env.glMapBuffer .GL_ARRAY_BUFFER .GL_WRITE_ONLY) P.get
          (env.fg_get_plot_vertex_buffer_size plot).2 .cudaMemcpyDeviceToHost st
          = .cudaSuccess ∧
        env.cudaStreamSynchronize st = .cudaSuccess) ∧
      env.CheckGL "End CUDA fallback-resource copy" = .ok ()) := by
  obtain ⟨-, p2⟩ := copy_plot_paths env P plot
  obtain ⟨-, p4⟩ := p2 hF
  obtain ⟨-, -, pF⟩ := p4 st hS
  obtain ⟨-, f2⟩ := pF hT
  obtain ⟨-, f4⟩ := f2 hb
  obtain ⟨-, f6⟩ := f4 hs
  obtain ⟨f7, f8⟩ := f6 hB
  by_cases hp : env.glMapBuffer .GL_ARRAY_BUFFER .GL_WRITE_ONLY = 0
  · rw [f7 hp]
    simp [fallbackPrelude, hp]
  obtain ⟨f9, f10⟩ := f8 hp
  by_cases hm : fallbackCopyStatus env P plot st = .cudaSuccess
  swap
  · rw [f9 hm]
    simp only [fallbackCopyStatus] at hm
    simp [fallbackPrelude, fallbackCopy, fallbackCopyStatus, hp, hm]
  obtain ⟨f11, f12⟩ := f10 hm
  by_cases hy : env.cudaStreamSynchronize st = .cudaSuccess
  swap
  · rw [f11 hy]
    simp only [fallbackCopyStatus] at hm
    simp [fallbackPrelude, fallbackCopy, hp, hm, hy]
  · rw [f12 hy]
    simp only [fallbackCopyStatus] at hm
    simp [fallbackPrelude, fallbackCopy, hp, hm, hy]

theorem fallback_copy_discipline_witness :
    Env.fallback.forgePlugin = .ok () ∧ Env.fallback.getActiveStream = .ok 3 ∧
    Env.fallback.checkGraphicsInteropCapability = .ok false ∧
    (Env.fallback.fg_get_plot_vertex_buffer 7).1 = .FG_ERR_NONE ∧
    (Env.fallback.fg_get_plot_vertex_buffer_size 7).1 = .FG_ERR_NONE ∧
    Env.fallback.CheckGL "Begin CUDA fallback-resource copy" = .ok () ∧
    (copy_plot Env.fallback ⟨100, 16⟩ 7 ()).val = .ok () ∧
    (copy_plot Env.fallback ⟨100, 16⟩ 7 ()).trace =
      [.forgePlugin, .getActiveStream, .checkGraphicsInteropCapability,
       .fg_get_plot_vertex_buffer 7, .fg_get_plot_vertex_buffer_size 7,
       .CheckGL "Begin CUDA fallback-resource copy",
       .glBindBuffer .GL_ARRAY_BUFFER 4, .glMapBuffer .GL_ARRAY_BUFFER .GL_WRITE_ONLY,
       .cudaMemcpyAsync 700 100 96 .cudaMemcpyDeviceToHost 3, .cudaStreamSynchronize 3,
       .glUnmapBuffer .GL_ARRAY_BUFFER,
       .glBindBuffer .GL_ARRAY_BUFFER 0, .CheckGL "End CUDA fallback-resource copy"] :=
  ⟨rfl, rfl, rfl, rfl, rfl, rfl,
    (fallback_copy_discipline Env.fallback ⟨100, 16⟩ 7 3 rfl rfl rfl rfl rfl rfl).2.2.2.2.2
      ⟨fun _ => ⟨rfl, rfl⟩, rfl⟩,
    (fallback_copy_discipline Env.fallback ⟨100, 16⟩ 7 3 rfl rfl rfl rfl rfl rfl).2.2.2.1
      ((fallback_copy_discipline Env.fallback ⟨100, 16⟩ 7 3 rfl rfl rfl rfl rfl rfl).2.2.2.2.2
        ⟨fun _ => ⟨rfl, rfl⟩, rfl⟩)⟩

end ArrayFire
